import Mathlib

/-!
Shallow embedding of the Alpaca device-client core of the TianyuControl
repository (src/common/alpaca_device.py, src/common/alpaca_client.py,
src/devices/telescope/telescope_driver.py,
src/devices/telescope/telescope_updater.py,
src/devices/covercalibrator/covercalibrator_driver.py), together with
theorems settling the frozen specification claims.

Python values appearing in Alpaca JSON envelopes are modelled by `JVal`;
HTTP interactions are modelled by passing the server's response (or `none`
for a transport-level exception such as connection refused) as an explicit
oracle argument.  Mutable object attributes (`self.transaction_id`,
`self.connected`, the capability flags) become explicit state records
threaded through the functions.
-/

namespace TianyuControl

/-- A JSON value as seen by Python after `response.json()`.
Numeric-string parsing by Python's `float(...)` is elided (see `pyFloat`):
weather and coordinate `Value`s are JSON numbers on the wire. -/
inductive JVal where
  | null
  | bool (b : Bool)
  | num (q : Rat)
  | str (s : String)
deriving DecidableEq, Repr

/-- Python truthiness of a JSON value (`bool(x)` / `if x:`). -/
def pyTruth : JVal → Bool
  | .null => false
  | .bool b => b
  | .num q => q ≠ 0
  | .str s => s ≠ ""

/-- Numeric view used by Python `==` (where `True == 1` holds). -/
def pyNum : JVal → Option Rat
  | .bool b => some (if b then 1 else 0)
  | .num q => some q
  | _ => none

/-- Python `==` on the JSON values we model. -/
def pyEq (a b : JVal) : Bool :=
  match pyNum a, pyNum b with
  | some x, some y => x == y
  | _, _ =>
    match a, b with
    | .str s, .str t => s == t
    | .null, .null => true
    | _, _ => false

/-- Python `float(x)`: succeeds on numbers and booleans, raises on `None`
and on non-numeric values.  (Numeric strings, which Python would parse,
are out of the model; Alpaca numeric `Value`s arrive as JSON numbers.) -/
def pyFloat : JVal → Option Rat
  | .num q => some q
  | .bool b => some (if b then 1 else 0)
  | .null => none
  | .str _ => none

/-- The parsed JSON body of an Alpaca response.  Each field is optional,
mirroring Python's `data.get(key, default)` on the decoded dict; for
`value`, `none` means the `"Value"` key is absent while `some .null`
means it is present and bound to JSON `null`. -/
structure Envelope where
  errorNumber : Option Int
  errorMessage : Option String
  value : Option JVal
deriving DecidableEq, Repr

/-- The raw body of an HTTP response: either text that fails JSON
decoding, or a decoded envelope. -/
inductive Body where
  | malformed (text : String)
  | json (e : Envelope)
deriving DecidableEq, Repr

/-- An HTTP response as delivered by `requests`. -/
structure HttpResponse where
  status : Nat
  body : Body
deriving DecidableEq, Repr

/-- The Python exceptions the adapter can raise (messages elided down to
their classifying data). -/
inductive PyErr where
  /-- `Exception("HTTP错误: {status}")` raised on a non-200 status. -/
  | httpStatus (status : Nat)
  /-- `Exception` raised when the body fails JSON decoding. -/
  | jsonDecode (status : Nat)
  /-- `Exception("Alpaca错误: code - msg")` raised on nonzero ErrorNumber. -/
  | alpaca (code : Int) (msg : String)
  /-- a `requests`-level exception (connection refused, timeout, ...). -/
  | connection
  /-- `ValueError` raised by argument validation before any request. -/
  | valueError
deriving DecidableEq, Repr

/-- The outcome of attempting one HTTP request: `none` models a transport
exception raised before any response object exists. -/
def Resp : Type := Option HttpResponse

/-- `AlpacaDevice._handle_response` (alpaca_device.py:96-140) and
`AlpacaClient._handle_response` (alpaca_client.py:72-109): first the
transport status is checked (non-200 raises), then the body is JSON
decoded (failure raises), then `ErrorNumber` is checked (`data.get
("ErrorNumber", 0) != 0` raises with the envelope's code and message,
message defaulting to the empty string); only then is the decoded
envelope returned. -/
def handleResponse (r : HttpResponse) : Except PyErr Envelope :=
  if r.status ≠ 200 then .error (.httpStatus r.status)
  else
    match r.body with
    | .malformed _ => .error (.jsonDecode r.status)
    | .json e =>
      if e.errorNumber.getD 0 ≠ 0 then
        .error (.alpaca (e.errorNumber.getD 0) ((e.errorMessage.getD "")))
      else .ok e

/-- Outcome of one request round-trip: a transport exception if no
response arrived, else `handleResponse` on the response. -/
def callOutcome : Resp → Except PyErr Envelope
  | none => .error .connection
  | some r => handleResponse r

/-- The mutable attributes of an `AlpacaDevice` / `AlpacaClient` instance
that the claims depend on: the per-client transaction counter
(`self.transaction_id`, initialised to 0) and the cached connection flag
(`self.connected`, initialised to Python `False`; it stores whatever
value the last successful `connected` read returned). -/
structure DevState where
  transactionId : Nat
  connected : JVal
deriving DecidableEq, Repr

/-- One HTTP request as put on the wire: the verb, the Alpaca command
segment of the URL, the query-string parameters, the form body, and the
`ClientTransactionID` carried by the request (also present inside
`query` or `form`; duplicated here for direct inspection). -/
structure WireRequest where
  verb : String
  command : String
  query : List (String × JVal)
  form : List (String × JVal)
  tid : Nat
deriving DecidableEq, Repr

/-- Python `base.update(upd)` on dicts: keys of `upd` override `base`,
new keys are appended in order. -/
def dictUpdate (base upd : List (String × JVal)) : List (String × JVal) :=
  base.map (fun kv => (kv.1, ((upd.lookup kv.1).getD kv.2)))
    ++ upd.filter (fun kv => base.lookup kv.1 = none)

/-- `AlpacaDevice._get_transaction_id` (alpaca_device.py:57-60) and
`AlpacaClient._get_next_transaction_id` (alpaca_client.py:44-47):
increment the counter, return its new value. -/
def getTransactionId (s : DevState) : Nat × DevState :=
  (s.transactionId + 1, { s with transactionId := s.transactionId + 1 })

/-- `AlpacaDevice._build_params` (alpaca_device.py:77-94) /
`AlpacaClient._build_params` (alpaca_client.py:60-70): a dict of
`ClientID` and a freshly incremented `ClientTransactionID`, updated with
the extra parameters. -/
def buildParams (clientId : Nat) (extra : List (String × JVal)) (s : DevState) :
    List (String × JVal) × Nat × DevState :=
  let (tid, s') := getTransactionId s
  (dictUpdate [("ClientID", .num clientId), ("ClientTransactionID", .num tid)] extra,
   tid, s')

/-- `AlpacaDevice._get_request` (alpaca_device.py:142-157): one GET with
the built params as query string, handled by `_handle_response`.  The
server's behaviour is the `resp` oracle. -/
def getRequest (clientId : Nat) (command : String) (extra : List (String × JVal))
    (resp : Resp) (s : DevState) :
    Except PyErr Envelope × List WireRequest × DevState :=
  let (params, tid, s') := buildParams clientId extra s
  (callOutcome resp, [⟨"GET", command, params, [], tid⟩], s')

/-- `AlpacaDevice._put_request` (alpaca_device.py:159-207): build the
params once; attempt 1 sends them as the query string with `data` as the
form body; on any failure, attempt 2 resends with everything merged into
a single form body (`all_data.update(data); all_data.update(params)`);
if both attempts fail, the first attempt's exception is re-raised.
`r1`/`r2` are the server's responses to the two attempts (`r2` is
consulted only when attempt 1 fails). -/
def putRequest (clientId : Nat) (command : String) (data : List (String × JVal))
    (extra : List (String × JVal)) (r1 r2 : Resp) (s : DevState) :
    Except PyErr Envelope × List WireRequest × DevState :=
  let (params, tid, s') := buildParams clientId extra s
  let req1 : WireRequest := ⟨"PUT", command, params, data, tid⟩
  match callOutcome r1 with
  | .ok env => (.ok env, [req1], s')
  | .error e1 =>
    let allData := dictUpdate data params
    let req2 : WireRequest := ⟨"PUT", command, [], allData, tid⟩
    match callOutcome r2 with
    | .ok env => (.ok env, [req1, req2], s')
    | .error _ => (.error e1, [req1, req2], s')

/-! ### Sequences of adapter calls (for transaction-ID claims) -/

/-- One logical adapter call together with the server's behaviour for
the HTTP requests it may issue. -/
inductive AlpacaOp where
  /-- a `_get_request command extra` with the server's response -/
  | getOp (command : String) (extra : List (String × JVal)) (resp : Resp)
  /-- a `_put_request command data extra` with the server's responses to
  the two possible attempts -/
  | putOp (command : String) (data extra : List (String × JVal)) (r1 r2 : Resp)

/-- Run one adapter call, returning the wire requests it issued. -/
def runOp (clientId : Nat) (op : AlpacaOp) (s : DevState) :
    Except PyErr Envelope × List WireRequest × DevState :=
  match op with
  | .getOp command extra resp => getRequest clientId command extra resp s
  | .putOp command data extra r1 r2 => putRequest clientId command data extra r1 r2 s

/-- Run a sequence of adapter calls, returning the wire requests grouped
per call. -/
def runOps (clientId : Nat) : List AlpacaOp → DevState → List (List WireRequest) × DevState
  | [], s => ([], s)
  | op :: rest, s =>
    let step := runOp clientId op s
    let restRun := runOps clientId rest step.2.2
    (step.2.1 :: restRun.1, restRun.2)

/-! ### Connection lifecycle (alpaca_device.py) -/

/-- `AlpacaDevice.is_connected` (alpaca_device.py:229-249): GET
`connected`; on success cache and return `result.get("Value", False)`;
on any exception return Python `False` leaving the cache untouched. -/
def isConnected (clientId : Nat) (resp : Resp) (s : DevState) :
    JVal × List WireRequest × DevState :=
  let (out, reqs, s') := getRequest clientId "connected" [] resp s
  match out with
  | .ok env =>
    let c := env.value.getD (.bool false)
    (c, reqs, { s' with connected := c })
  | .error _ => (.bool false, reqs, s')

/-- The form data `set_connected` sends (alpaca_device.py:269-274):
three spellings of the flag, each as the lowercase string
`"true"`/`"false"`. -/
def connectedFormData (connected : Bool) : List (String × JVal) :=
  let v : JVal := .str (if connected then "true" else "false")
  [("Connected", v), ("connected", v), ("isConnected", v)]

/-- `AlpacaDevice.set_connected` (alpaca_device.py:251-293): PUT
`connected` with the form data; on exception return `false` (cache
untouched).  Otherwise verify by `is_connected()`; if the value read
(Python-)equals the target, cache the target and return `true`, else
return `false` (the cache then holds whatever the read stored).
`putR1`/`putR2` answer the PUT's two attempts, `verify` answers the
verification GET. -/
def setConnected (clientId : Nat) (target : Bool) (putR1 putR2 verify : Resp)
    (s : DevState) : Bool × List WireRequest × DevState :=
  let (out, reqs, s1) := putRequest clientId "connected" (connectedFormData target) [] putR1 putR2 s
  match out with
  | .error _ => (false, reqs, s1)
  | .ok _ =>
    let (cur, vreqs, s2) := isConnected clientId verify s1
    if pyEq cur (.bool target) then
      (true, reqs ++ vreqs, { s2 with connected := .bool target })
    else
      (false, reqs ++ vreqs, s2)

/-- The server responses a `connect()` run can consume. -/
structure ConnectOracle where
  /-- response to the initial `is_connected()` check -/
  check : Resp
  /-- responses to the `set_connected(True)` PUT's two attempts -/
  putR1 : Resp
  putR2 : Resp
  /-- response to the verification GET inside `set_connected` -/
  verify : Resp
  /-- response to the final confirming `is_connected()` in `connect` -/
  confirm : Resp

/-- `AlpacaDevice.connect` (alpaca_device.py:313-351): if
`is_connected()` is truthy, return `true` at once.  Otherwise call
`set_connected(True)` once; if it reports failure return `false`; else
confirm with one more `is_connected()` and return its truthiness.  There
is no wait and no retry loop (the `timeout` parameter is unused). -/
def connect (clientId : Nat) (o : ConnectOracle) (s : DevState) :
    Bool × List WireRequest × DevState :=
  let (c0, reqs0, s0) := isConnected clientId o.check s
  if pyTruth c0 then (true, reqs0, s0)
  else
    let (ok1, reqs1, s1) := setConnected clientId true o.putR1 o.putR2 o.verify s0
    if !ok1 then (false, reqs0 ++ reqs1, s1)
    else
      let (c2, reqs2, s2) := isConnected clientId o.confirm s1
      (pyTruth c2, reqs0 ++ reqs1 ++ reqs2, s2)

/-- `AlpacaDevice.disconnect` (alpaca_device.py:353-372): call
`set_connected(False)` and return its result (`set_connected` never
raises, so the surrounding try/except adds nothing). -/
def disconnect (clientId : Nat) (putR1 putR2 verify : Resp) (s : DevState) :
    Bool × List WireRequest × DevState :=
  setConnected clientId false putR1 putR2 verify s

/-! ### Telescope slewing (alpaca_client.py, telescope_driver.py) -/

/-- `AlpacaClient.slew_to_coordinates_async` (alpaca_client.py:879-920):
validate `0 <= ra < 24` and `-90 <= dec <= 90`, raising `ValueError`
before any network activity on violation; then one PUT to
`slewtocoordinatesasync` with a form body carrying the client id, a
fresh transaction id and the coordinates; `_handle_response` errors
propagate. -/
def slewToCoordinatesAsync (clientId : Nat) (ra dec : Rat) (resp : Resp)
    (s : DevState) : Except PyErr Unit × List WireRequest × DevState :=
  if ra < 0 ∨ 24 ≤ ra then (.error .valueError, [], s)
  else if dec < -90 ∨ 90 < dec then (.error .valueError, [], s)
  else
    let (tid, s') := getTransactionId s
    let form : List (String × JVal) :=
      [("ClientID", .num clientId), ("ClientTransactionID", .num tid),
       ("RightAscension", .num ra), ("Declination", .num dec)]
    let req : WireRequest := ⟨"PUT", "slewtocoordinatesasync", [], form, tid⟩
    match callOutcome resp with
    | .ok _ => (.ok (), [req], s')
    | .error e => (.error e, [req], s')

/-- `TelescopeDriver.set_target_coordinates` (telescope_driver.py:130-155):
PUT `targetrightascension` then PUT `targetdeclination` (each through the
`_put_request` fallback); any exception is caught and yields `false`.
No argument validation. -/
def setTargetCoordinates (clientId : Nat) (ra dec : Rat)
    (raR1 raR2 decR1 decR2 : Resp) (s : DevState) :
    Bool × List WireRequest × DevState :=
  let (out1, reqs1, s1) :=
    putRequest clientId "targetrightascension"
      [("TargetRightAscension", .str (toString ra))] [] raR1 raR2 s
  match out1 with
  | .error _ => (false, reqs1, s1)
  | .ok _ =>
    let (out2, reqs2, s2) :=
      putRequest clientId "targetdeclination"
        [("TargetDeclination", .str (toString dec))] [] decR1 decR2 s1
    match out2 with
    | .error _ => (false, reqs1 ++ reqs2, s2)
    | .ok _ => (true, reqs1 ++ reqs2, s2)

/-- `TelescopeDriver.is_slewing` (telescope_driver.py:157-170): GET
`slewing`, truthiness of `Value` on success, `false` on any exception. -/
def isSlewing (clientId : Nat) (resp : Resp) (s : DevState) :
    Bool × List WireRequest × DevState :=
  let (out, reqs, s') := getRequest clientId "slewing" [] resp s
  match out with
  | .ok env => (pyTruth (env.value.getD (.bool false)), reqs, s')
  | .error _ => (false, reqs, s')

/-- The `while self.is_slewing(): time.sleep(1)` loop of
`TelescopeDriver.slew_to_coordinates`, polling against a finite oracle
of responses (one per iteration; a run in which every poll reports
slewing would not terminate in Python, so only runs whose oracle list
suffices to exit the loop are modelled — exhausting the list ends the
run). -/
def waitSlewDone (clientId : Nat) : List Resp → DevState →
    List WireRequest × DevState
  | [], s => ([], s)
  | resp :: rest, s =>
    let (slewing, reqs, s') := isSlewing clientId resp s
    if slewing then
      let (reqs', s'') := waitSlewDone clientId rest s'
      (reqs ++ reqs', s'')
    else (reqs, s')

/-- Server responses consumed by `TelescopeDriver.slew_to_coordinates`. -/
structure SlewOracle where
  /-- the two attempts of the `targetrightascension` PUT -/
  targetRaR1 : Resp
  targetRaR2 : Resp
  /-- the two attempts of the `targetdeclination` PUT -/
  targetDecR1 : Resp
  targetDecR2 : Resp
  /-- the two attempts of the `slewtocoordinates` PUT -/
  slewR1 : Resp
  slewR2 : Resp
  /-- responses to the `is_slewing` polls -/
  polls : List Resp

/-- `TelescopeDriver.slew_to_coordinates` (telescope_driver.py:101-128):
no argument validation; call `set_target_coordinates` (its result is
ignored), PUT `slewtocoordinates`, then poll `is_slewing` until done;
any uncaught exception (only the PUT can raise here) yields `false`,
else `true`. -/
def driverSlewToCoordinates (clientId : Nat) (ra dec : Rat) (o : SlewOracle)
    (s : DevState) : Bool × List WireRequest × DevState :=
  let (_, reqsT, s1) :=
    setTargetCoordinates clientId ra dec o.targetRaR1 o.targetRaR2 o.targetDecR1 o.targetDecR2 s
  let (outS, reqsS, s2) :=
    putRequest clientId "slewtocoordinates"
      [("RightAscension", .str (toString ra)), ("Declination", .str (toString dec))]
      [] o.slewR1 o.slewR2 s1
  match outS with
  | .error _ => (false, reqsT ++ reqsS, s2)
  | .ok _ =>
    let (reqsP, s3) := waitSlewDone clientId o.polls s2
    (true, reqsT ++ reqsS ++ reqsP, s3)

/-! ### Weather-sensor getters (alpaca_device.py:548-690) -/

/-- The shared body of the twelve weather-sensor getters
(`get_temperature`, ..., `get_sky_quality`): GET the command; if the
envelope has a `"Value"` key, return `float(Value)`; if the key is
absent, return `0.0`; any exception anywhere (transport, non-200 status,
JSON decode failure, nonzero ErrorNumber, or `float(...)` raising on a
non-numeric value) is caught and yields Python `None` (modelled as
`none`). -/
def weatherGet (clientId : Nat) (command : String) (resp : Resp) (s : DevState) :
    Option Rat × List WireRequest × DevState :=
  let (out, reqs, s') := getRequest clientId command [] resp s
  match out with
  | .error _ => (none, reqs, s')
  | .ok env =>
    match env.value with
    | none => (some 0, reqs, s')
    | some v =>
      match pyFloat v with
      | some q => (some q, reqs, s')
      | none => (none, reqs, s')

/-- `AlpacaDevice.get_temperature` (alpaca_device.py:548-558). -/
def get_temperature (clientId : Nat) := weatherGet clientId "temperature"

/-- `AlpacaDevice.get_humidity` (alpaca_device.py:560-569). -/
def get_humidity (clientId : Nat) := weatherGet clientId "humidity"

/-- `AlpacaDevice.get_pressure` (alpaca_device.py:571-580). -/
def get_pressure (clientId : Nat) := weatherGet clientId "pressure"

/-- `AlpacaDevice.get_wind_speed` (alpaca_device.py:582-591). -/
def get_wind_speed (clientId : Nat) := weatherGet clientId "windspeed"

/-- `AlpacaDevice.get_rain_rate` (alpaca_device.py:604-613). -/
def get_rain_rate (clientId : Nat) := weatherGet clientId "rainrate"

/-- `AlpacaDevice.get_cloud_cover` (alpaca_device.py:615-624). -/
def get_cloud_cover (clientId : Nat) := weatherGet clientId "cloudcover"

/-- `AlpacaDevice.get_dew_point` (alpaca_device.py:626-635). -/
def get_dew_point (clientId : Nat) := weatherGet clientId "dewpoint"

/-- `AlpacaDevice.get_sky_brightness` (alpaca_device.py:637-646). -/
def get_sky_brightness (clientId : Nat) := weatherGet clientId "skybrightness"

/-- `AlpacaDevice.get_sky_temperature` (alpaca_device.py:648-657). -/
def get_sky_temperature (clientId : Nat) := weatherGet clientId "skytemperature"

/-- `AlpacaDevice.get_star_fwhm` (alpaca_device.py:659-668). -/
def get_star_fwhm (clientId : Nat) := weatherGet clientId "starfwhm"

/-- `AlpacaDevice.get_wind_gust` (alpaca_device.py:670-679). -/
def get_wind_gust (clientId : Nat) := weatherGet clientId "windgust"

/-- `AlpacaDevice.get_sky_quality` (alpaca_device.py:681-690). -/
def get_sky_quality (clientId : Nat) := weatherGet clientId "skyquality"

/-! ### Cover/calibrator driver (covercalibrator_driver.py) -/

/-- The mutable attributes of a `CoverCalibratorDriver`: the base-class
state plus the two capability flags, each `None` (untested) / `True`
(supported) / `False` (unsupported) — covercalibrator_driver.py:38-40. -/
structure CCState where
  dev : DevState
  supportsCoverMoving : Option Bool
  supportsCalibratorChanging : Option Bool
deriving DecidableEq, Repr

/-- The integer-to-string cover state table of
`CoverCalibratorDriver.get_cover_state` (covercalibrator_driver.py:100-107),
with `state_map.get(value, "Unknown")` for codes outside the table. -/
def coverStateMap (v : Int) : String :=
  if v = 0 then "NotPresent"
  else if v = 1 then "Closed"
  else if v = 2 then "Moving"
  else if v = 3 then "Open"
  else if v = -1 then "Unknown"
  else "Unknown"

/-- The integer-to-string calibrator state table of
`CoverCalibratorDriver.get_calibrator_state`
(covercalibrator_driver.py:176-184). -/
def calibratorStateMap (v : Int) : String :=
  if v = 0 then "NotPresent"
  else if v = 1 then "Off"
  else if v = 2 then "Ready"
  else if v = 3 then "CalibrationRequired"
  else if v = 4 then "On"
  else if v = -1 then "Unknown"
  else "Unknown"

/-- Shared shape of the two state getters: GET the endpoint; an `int`
value (a JSON integer — in Python a bool is also an `int`, with
`True == 1`) goes through the state table, a string is passed through,
anything else and every exception yields `"Unknown"`. -/
def stateFromOutcome (table : Int → String) (out : Except PyErr Envelope) : String :=
  match out with
  | .error _ => "Unknown"
  | .ok env =>
    match env.value with
    | some (.num q) => if q.den = 1 then table q.num else "Unknown"
    | some (.bool b) => table (if b then 1 else 0)
    | some (.str st) => st
    | _ => "Unknown"

/-- `CoverCalibratorDriver.get_cover_state` (covercalibrator_driver.py:85-118). -/
def getCoverState (clientId : Nat) (resp : Resp) (s : DevState) :
    String × List WireRequest × DevState :=
  let (out, reqs, s') := getRequest clientId "coverstate" [] resp s
  (stateFromOutcome coverStateMap out, reqs, s')

/-- `CoverCalibratorDriver.get_calibrator_state`
(covercalibrator_driver.py:160-194). -/
def getCalibratorState (clientId : Nat) (resp : Resp) (s : DevState) :
    String × List WireRequest × DevState :=
  let (out, reqs, s') := getRequest clientId "calibratorstate" [] resp s
  (stateFromOutcome calibratorStateMap out, reqs, s')

/-- Server responses consumed by one `get_cover_moving` /
`get_calibrator_changing` call: the optional direct endpoint and the
state endpoint used by the fallback path. -/
structure ProbeOracle where
  endpointResp : Resp
  stateResp : Resp

/-- `CoverCalibratorDriver.get_cover_moving`
(covercalibrator_driver.py:340-381): if the flag is `False`, skip the
direct endpoint and derive the result from `get_cover_state() ==
"Moving"` (that getter never raises, so the surrounding except is dead
code).  Otherwise GET `covermoving`: on success set the flag `True` and
return the value's truthiness; on failure set the flag `False` and fall
back to the state comparison. -/
def getCoverMoving (clientId : Nat) (o : ProbeOracle) (s : CCState) :
    Bool × List WireRequest × CCState :=
  if s.supportsCoverMoving = some false then
    let (st, reqs, d') := getCoverState clientId o.stateResp s.dev
    (st == "Moving", reqs, { s with dev := d' })
  else
    let (out, reqs, d1) := getRequest clientId "covermoving" [] o.endpointResp s.dev
    match out with
    | .ok env =>
      (pyTruth (env.value.getD (.bool false)), reqs,
       { s with dev := d1, supportsCoverMoving := some true })
    | .error _ =>
      let (st, reqs2, d2) := getCoverState clientId o.stateResp d1
      (st == "Moving", reqs ++ reqs2,
       { s with dev := d2, supportsCoverMoving := some false })

/-- `CoverCalibratorDriver.get_calibrator_changing`
(covercalibrator_driver.py:294-338): same shape with endpoint
`calibratorchanging`, state getter `get_calibrator_state`, and expected
transient state `"CalibrationRequired"`. -/
def getCalibratorChanging (clientId : Nat) (o : ProbeOracle) (s : CCState) :
    Bool × List WireRequest × CCState :=
  if s.supportsCalibratorChanging = some false then
    let (st, reqs, d') := getCalibratorState clientId o.stateResp s.dev
    (st == "CalibrationRequired", reqs, { s with dev := d' })
  else
    let (out, reqs, d1) := getRequest clientId "calibratorchanging" [] o.endpointResp s.dev
    match out with
    | .ok env =>
      (pyTruth (env.value.getD (.bool false)), reqs,
       { s with dev := d1, supportsCalibratorChanging := some true })
    | .error _ =>
      let (st, reqs2, d2) := getCalibratorState clientId o.stateResp d1
      (st == "CalibrationRequired", reqs ++ reqs2,
       { s with dev := d2, supportsCalibratorChanging := some false })

/-- Run a sequence of `get_cover_moving` calls, collecting all wire
requests. -/
def runCoverMoving (clientId : Nat) : List ProbeOracle → CCState →
    List WireRequest × CCState
  | [], s => ([], s)
  | o :: rest, s =>
    let step := getCoverMoving clientId o s
    let restRun := runCoverMoving clientId rest step.2.2
    (step.2.1 ++ restRun.1, restRun.2)

/-- Run a sequence of `get_calibrator_changing` calls, collecting all
wire requests. -/
def runCalibratorChanging (clientId : Nat) : List ProbeOracle → CCState →
    List WireRequest × CCState
  | [], s => ([], s)
  | o :: rest, s =>
    let step := getCalibratorChanging clientId o s
    let restRun := runCalibratorChanging clientId rest step.2.2
    (step.2.1 ++ restRun.1, restRun.2)

/-- Number of wire requests addressed to a given endpoint. -/
def countCommand (command : String) (reqs : List WireRequest) : Nat :=
  (reqs.filter (fun r => r.command == command)).length

/-! ### Telescope polling cycle (telescope_updater.py) -/

/-- The snapshot keys `TelescopeUpdater._update_telescope_data` writes
into `self.telescope_data`. -/
inductive TProp where
  | siderealTime
  | rightAscension
  | declination
  | altitude
  | azimuth
  | equatorialSystem
  | tracking
  | slewing
  | parked
  | atHome
  | trackingRate
  | siteLatitude
  | siteLongitude
  | siteElevation
deriving DecidableEq, Repr

/-- A device state snapshot: last-known value per property, `none` when
the key has never been written. -/
def TSnap : Type := TProp → Option JVal

/-- Python `d[key] = value` for the snapshot dict. -/
def snapInsert (s : TSnap) (p : TProp) (v : JVal) : TSnap :=
  fun q => if q = p then some v else s q

/-- `for key, value in temp_data.items(): self.telescope_data[key] = value`
(telescope_updater.py:350-351): keys present in the working copy
override, all others keep their previous value. -/
def mergeSnap (prev : TSnap) (temp : List (TProp × JVal)) : TSnap :=
  fun p =>
    match temp.lookup p with
    | some v => some v
    | none => prev p

/-- `try: temp_data[p] = fetch() except: pass` — the working-copy entry
of one individually guarded property (telescope_updater.py:246-290):
present on success, absent on failure. -/
def guardFetch (f : TProp → Except Unit JVal) (p : TProp) : List (TProp × JVal) :=
  match f p with
  | .ok v => [(p, v)]
  | .error _ => []

/-- The boolean-string parsing of `get_parked_safe` / `get_at_home_safe`
(alpaca_client_extension.py:106-117, 141-152): "true"/"1"/"yes" (lower
cased) give `True`, "false"/"0"/"no" give `False`, anything else gives
`False` too. -/
def parseBoolAnswer (s : String) : Bool :=
  if s.toLower = "true" ∨ s.toLower = "1" ∨ s.toLower = "yes" then true
  else if s.toLower = "false" ∨ s.toLower = "0" ∨ s.toLower = "no" then false
  else false

/-- The shared body of `AlpacaClientExtension.get_parked_safe`
(alpaca_client_extension.py:91-124) and `get_at_home_safe`
(alpaca_client_extension.py:126-159): try the direct endpoint and return
its value; on failure try the command-string fallback and parse it; if
that also fails, return the fresh default `False`.  The method never
raises. -/
def safeBoolFetch (direct : Except Unit JVal) (command : Except Unit String) : JVal :=
  match direct with
  | .ok v => v
  | .error _ =>
    match command with
    | .ok s => .bool (parseBoolAnswer s)
    | .error _ => .bool false

/-- `AlpacaClientExtension.get_parked_safe` (alpaca_client_extension.py:91-124). -/
def getParkedSafe (direct : Except Unit JVal) (command : Except Unit String) : JVal :=
  safeBoolFetch direct command

/-- `AlpacaClientExtension.get_at_home_safe` (alpaca_client_extension.py:126-159). -/
def getAtHomeSafe (direct : Except Unit JVal) (command : Except Unit String) : JVal :=
  safeBoolFetch direct command

/-- `AlpacaClientExtension._get_tracking_rate_text`
(alpaca_client_extension.py:66-90) on an integer rate value (the client
returns the JSON number of the `trackingrate` endpoint; non-integer
floats are elided from the model). -/
def trackingRateText (v : Int) : String :=
  if v = 0 then "Sidereal Rate"
  else if v = 1 then "Lunar Rate"
  else if v = 2 then "Solar Rate"
  else if v = 3 then "King Rate"
  else "King Rate (" ++ toString v ++ ")"

/-- `AlpacaClientExtension.get_tracking_rate_safe`
(alpaca_client_extension.py:31-64): try the direct `trackingrate`
endpoint and convert to text; on failure try the command-string
fallback, returning the converted value when it parses as an integer and
the raw string otherwise; if that also fails, return the fresh default
`"Unknown"`.  The method never raises. -/
def getTrackingRateSafe (direct : Except Unit Int) (command : Except Unit String) :
    String :=
  match direct with
  | .ok v => trackingRateText v
  | .error _ =>
    match command with
    | .ok s =>
      match s.trim.toInt? with
      | some v => trackingRateText v
      | none => s
    | .error _ => "Unknown"

/-- The site-location block (telescope_updater.py:327-342): latitude,
longitude and elevation are fetched sequentially inside one handler, so
a failure skips the remaining fields of the block but keeps the ones
already fetched. -/
def siteBlock (f : TProp → Except Unit JVal) : List (TProp × JVal) :=
  match f .siteLatitude with
  | .error _ => []
  | .ok la =>
    (TProp.siteLatitude, la) ::
      (match f .siteLongitude with
       | .error _ => []
       | .ok lo =>
         (TProp.siteLongitude, lo) ::
           (match f .siteElevation with
            | .error _ => []
            | .ok el => [(TProp.siteElevation, el)]))

/-- The unguarded coordinate entries (telescope_updater.py:233-243). -/
def coreEntries (v1 v2 v3 v4 v5 : JVal) : List (TProp × JVal) :=
  [(.siderealTime, v1), (.rightAscension, v2), (.declination, v3),
   (.altitude, v4), (.azimuth, v5)]

/-- `TelescopeUpdater._update_telescope_data`
(telescope_updater.py:207-361), as the map from the previous snapshot to
the published one.  `conn` is the outcome of `client.get_connected` and
`f` the outcome of each direct property fetch (the `AlpacaClient`
getters raise on any protocol failure).  The connected check and the
five coordinate fetches run without a per-property handler, so a failure
there falls to the outer `except` and the cycle publishes nothing;
`equatorial_system`, `tracking` and `slewing` are each individually
guarded (failure leaves the key out of the working copy).  `set_client`
always constructs an `AlpacaClientExtension`, so in a running updater
`parked`, `at_home` and `tracking_rate` are fetched through
`get_parked_safe` / `get_at_home_safe` / `get_tracking_rate_safe`, which
never raise and substitute fresh defaults (`False` / `False` /
`"Unknown"`) on total failure — the updater's own except handlers around
these three (telescope_updater.py:269-290, 309-322, including the
`else`-branches for a missing extension) are dead code, and the three
keys are always present in the working copy.  The three site fields
share one guard, so a failure skips the remaining fields of that block
only.  `trackingRateDirect` and the `...Cmd` oracles are the safe
getters' direct-endpoint and command-string outcomes. -/
def updateTelescopeData (conn : Except Unit JVal) (f : TProp → Except Unit JVal)
    (trackingRateDirect : Except Unit Int)
    (parkedCmd atHomeCmd trackingRateCmd : Except Unit String)
    (prev : TSnap) : TSnap :=
  match conn with
  | .error _ => prev
  | .ok c =>
    if pyTruth c = false then prev
    else
      match f .siderealTime, f .rightAscension, f .declination, f .altitude, f .azimuth with
      | .ok v1, .ok v2, .ok v3, .ok v4, .ok v5 =>
        mergeSnap prev
          (coreEntries v1 v2 v3 v4 v5
            ++ (guardFetch f .equatorialSystem ++ guardFetch f .tracking
                ++ guardFetch f .slewing)
            ++ [(TProp.parked, getParkedSafe (f .parked) parkedCmd)]
            ++ [(TProp.atHome, getAtHomeSafe (f .atHome) atHomeCmd)]
            ++ [(TProp.trackingRate,
                 .str (getTrackingRateSafe trackingRateDirect trackingRateCmd))]
            ++ siteBlock f)
      | _, _, _, _, _ => prev

/-- The snapshot keys `CoverCalibratorUpdater.update_data` emits. -/
inductive CCProp where
  | connected
  | coverState
  | coverMoving
  | calibratorState
  | calibratorChanging
  | brightness
  | maxBrightness
  | coverPresent
  | calibratorPresent
deriving DecidableEq, Repr

/-- The fresh per-property defaults `CoverCalibratorUpdater.update_data`
substitutes when reading a model attribute fails
(covercalibrator_updater.py:88-126). -/
def ccDefault : CCProp → JVal
  | .connected => .bool false
  | .coverState => .str "Unknown"
  | .coverMoving => .bool false
  | .calibratorState => .str "Unknown"
  | .calibratorChanging => .bool false
  | .brightness => .num 0
  | .maxBrightness => .num 100
  | .coverPresent => .bool false
  | .calibratorPresent => .bool false

/-- `CoverCalibratorUpdater.update_data`
(covercalibrator_updater.py:72-138) as the map building the emitted data
dict.  `self._model.update_device_state()` runs first under its own
guard, so its failure never prevents the dict build (retention across
cycles lives only in the model object's cached attributes, outside this
function); then each of the nine attribute reads (`g`) is guarded
individually, substituting its fresh type-specific default on failure.
A complete fresh dict with all nine keys is emitted every cycle — the
dict is not merged with previously emitted data. -/
def ccUpdateData (g : CCProp → Except Unit JVal) : CCProp → JVal :=
  fun p =>
    match g p with
    | .ok v => v
    | .error _ => ccDefault p

/-! ### Atomic snapshot publication (telescope_updater.py:135-143, 344-357)

The writer merges its working copy into `self.telescope_data` key by key
while holding `self._lock`; `get_data` copies the dict under the same
lock.  The publication is modelled at per-key granularity: a cycle is
the micro-instruction sequence acquire / one write per key / release,
and a reader can copy the snapshot exactly when the lock is free. -/

/-- One micro-step of the polling writer. -/
inductive WInstr where
  | acquire
  | write (p : TProp) (v : JVal)
  | release
deriving DecidableEq, Repr

/-- The micro-steps of publishing one cycle's working copy. -/
def cycleProgram (t : List (TProp × JVal)) : List WInstr :=
  .acquire :: (t.map (fun pv => WInstr.write pv.1 pv.2) ++ [.release])

/-- The micro-steps of a whole run of poll cycles. -/
def writerProgram (cycles : List (List (TProp × JVal))) : List WInstr :=
  cycles.foldr (fun t acc => cycleProgram t ++ acc) []

/-- Effect of one micro-step on (lock held by writer, published dict). -/
def stepInstr (st : Bool × TSnap) (i : WInstr) : Bool × TSnap :=
  match i with
  | .acquire => (true, st.2)
  | .write p v => (st.1, snapInsert st.2 p v)
  | .release => (false, st.2)

/-- The shared state after the writer has executed its first `n`
micro-steps. -/
def execWriter (init : TSnap) (cycles : List (List (TProp × JVal))) (n : Nat) :
    Bool × TSnap :=
  ((writerProgram cycles).take n).foldl stepInstr (false, init)

/-- The snapshot after completely applying one cycle's working copy. -/
def applyCycle (s : TSnap) (t : List (TProp × JVal)) : TSnap :=
  t.foldl (fun s pv => snapInsert s pv.1 pv.2) s

/-- The snapshot after completely applying a sequence of cycles. -/
def applyCycles (init : TSnap) (cycles : List (List (TProp × JVal))) : TSnap :=
  cycles.foldl applyCycle init

/-! ## Theorems for the specification claims -/

/-- C1: for every adapter call whose HTTP response has status 200 and
whose JSON body carries a nonzero ErrorNumber, `_handle_response` fails
with the device-level error carrying that ErrorNumber and ErrorMessage
(in particular `DeviceError(1025, "Invalid while parked")` and never a
success with the envelope's Value), and the checks are applied in order:
transport status first (non-200 fails regardless of the body), then JSON
parse, then ErrorNumber. -/
theorem c1_envelope_error_unwrapping :
    (∀ (r : HttpResponse) (e : Envelope), r.status = 200 → r.body = .json e →
      e.errorNumber.getD 0 ≠ 0 →
      handleResponse r = .error (.alpaca (e.errorNumber.getD 0) (e.errorMessage.getD "")))
    ∧ (∀ r : HttpResponse, r.status ≠ 200 →
      handleResponse r = .error (.httpStatus r.status))
    ∧ (∀ (r : HttpResponse) (t : String), r.status = 200 → r.body = .malformed t →
      handleResponse r = .error (.jsonDecode 200))
    ∧ handleResponse ⟨200, .json ⟨some 1025, some "Invalid while parked", some .null⟩⟩
      = .error (.alpaca 1025 "Invalid while parked") := by
  refine ⟨?_, ?_, ?_, rfl⟩
  · intro r e hs hb hn
    simp [handleResponse, hs, hb, hn]
  · intro r hs
    simp [handleResponse, hs]
  · intro r t hs hb
    simp [handleResponse, hs, hb]

/-- Witness for C1 at the spec's concrete envelope. -/
theorem c1_witness :
    handleResponse ⟨200, .json ⟨some 1025, some "Invalid while parked", some .null⟩⟩
      = .error (.alpaca 1025 "Invalid while parked") :=
  c1_envelope_error_unwrapping.1 ⟨200, .json ⟨some 1025, some "Invalid while parked", some .null⟩⟩
    ⟨some 1025, some "Invalid while parked", some .null⟩ rfl rfl (by decide)

/-- C6: every PUT through `AlpacaDevice._put_request` first attempts the
request with the transaction/client parameters as the query string and
the payload as the form body; on any failure it retries exactly once
with all parameters merged into a single form body; if both attempts
fail, the error raised is the first attempt's, not the second's. -/
theorem c6_put_two_phase_fallback (clientId : Nat) (command : String)
    (data extra : List (String × JVal)) (r1 r2 : Resp) (s : DevState) :
    (∀ env, callOutcome r1 = .ok env →
      putRequest clientId command data extra r1 r2 s
        = (.ok env,
           [⟨"PUT", command, (buildParams clientId extra s).1, data, s.transactionId + 1⟩],
           { s with transactionId := s.transactionId + 1 }))
    ∧ (∀ e1, callOutcome r1 = .error e1 →
      (putRequest clientId command data extra r1 r2 s).2.1
        = [⟨"PUT", command, (buildParams clientId extra s).1, data, s.transactionId + 1⟩,
           ⟨"PUT", command, [], dictUpdate data (buildParams clientId extra s).1,
            s.transactionId + 1⟩]
      ∧ (∀ env, callOutcome r2 = .ok env →
          (putRequest clientId command data extra r1 r2 s).1 = .ok env)
      ∧ (∀ e2, callOutcome r2 = .error e2 →
          (putRequest clientId command data extra r1 r2 s).1 = .error e1)) := by
  constructor
  · intro env h
    simp [putRequest, buildParams, getTransactionId, h]
  · intro e1 h1
    refine ⟨?_, ?_, ?_⟩
    · cases h2 : callOutcome r2 <;>
        simp [putRequest, buildParams, getTransactionId, h1, h2]
    · intro env h2
      simp [putRequest, buildParams, getTransactionId, h1, h2]
    · intro e2 h2
      simp [putRequest, buildParams, getTransactionId, h1, h2]

/-- Witness for C6: a PUT whose two attempts both fail with a connection
error surfaces the first attempt's error after exactly two wire
requests. -/
theorem c6_witness :
    (putRequest 7 "connected" [("Connected", .str "true")] [] none none
        ⟨0, .bool false⟩).2.1
      = [⟨"PUT", "connected", (buildParams 7 [] ⟨0, .bool false⟩).1,
          [("Connected", .str "true")], 1⟩,
         ⟨"PUT", "connected", [],
          dictUpdate [("Connected", .str "true")] (buildParams 7 [] ⟨0, .bool false⟩).1, 1⟩]
    ∧ (putRequest 7 "connected" [("Connected", .str "true")] [] none none
        ⟨0, .bool false⟩).1 = .error .connection := by
  have h := (c6_put_two_phase_fallback 7 "connected" [("Connected", .str "true")] []
    none none ⟨0, .bool false⟩).2 .connection rfl
  exact ⟨h.1, h.2.2 .connection rfl⟩

/-- C10: every weather-sensor getter on the device base class is total
(a Lean function) and its failure defaults are asymmetric: it returns
`float(Value)` when the request succeeds and the envelope contains a
`"Value"` field with a convertible value, `0.0` when the request
succeeds but the envelope lacks `"Value"`, and Python `None` when the
request fails for any reason (transport error, non-200 status, malformed
body, nonzero ErrorNumber) or when `float(Value)` raises on a
non-numeric value; the result never depends on the device state, so no
previously fetched reading is ever returned.  All twelve getters are the
same function applied to their endpoint names. -/
theorem c10_weather_getter_asymmetric_defaults (clientId : Nat) (command : String)
    (resp : Resp) (s : DevState) :
    (∀ e, callOutcome resp = .error e →
      (weatherGet clientId command resp s).1 = none)
    ∧ (∀ env, callOutcome resp = .ok env →
      (env.value = none → (weatherGet clientId command resp s).1 = some 0)
      ∧ (∀ v q, env.value = some v → pyFloat v = some q →
          (weatherGet clientId command resp s).1 = some q)
      ∧ (∀ v, env.value = some v → pyFloat v = none →
          (weatherGet clientId command resp s).1 = none))
    ∧ (∀ s' : DevState, (weatherGet clientId command resp s).1
        = (weatherGet clientId command resp s').1)
    ∧ get_temperature clientId = weatherGet clientId "temperature"
    ∧ get_humidity clientId = weatherGet clientId "humidity"
    ∧ get_pressure clientId = weatherGet clientId "pressure"
    ∧ get_wind_speed clientId = weatherGet clientId "windspeed"
    ∧ get_rain_rate clientId = weatherGet clientId "rainrate"
    ∧ get_cloud_cover clientId = weatherGet clientId "cloudcover"
    ∧ get_dew_point clientId = weatherGet clientId "dewpoint"
    ∧ get_sky_brightness clientId = weatherGet clientId "skybrightness"
    ∧ get_sky_temperature clientId = weatherGet clientId "skytemperature"
    ∧ get_star_fwhm clientId = weatherGet clientId "starfwhm"
    ∧ get_wind_gust clientId = weatherGet clientId "windgust"
    ∧ get_sky_quality clientId = weatherGet clientId "skyquality" := by
  refine ⟨?_, ?_, ?_, rfl, rfl, rfl, rfl, rfl, rfl, rfl, rfl, rfl, rfl, rfl, rfl⟩
  · intro e h
    simp [weatherGet, getRequest, buildParams, getTransactionId, h]
  · intro env h
    refine ⟨?_, ?_, ?_⟩
    · intro hv
      simp [weatherGet, getRequest, buildParams, getTransactionId, h, hv]
    · intro v q hv hq
      simp [weatherGet, getRequest, buildParams, getTransactionId, h, hv, hq]
    · intro v hv hq
      simp [weatherGet, getRequest, buildParams, getTransactionId, h, hv, hq]
  · intro s'
    cases h : callOutcome resp with
    | error e => simp [weatherGet, getRequest, buildParams, getTransactionId, h]
    | ok env =>
      cases hv : env.value with
      | none => simp [weatherGet, getRequest, buildParams, getTransactionId, h, hv]
      | some v =>
        cases hq : pyFloat v <;>
          simp [weatherGet, getRequest, buildParams, getTransactionId, h, hv, hq]

/-- Witness for C10: a nonzero-ErrorNumber envelope yields `None`, while
a plain numeric envelope yields the reading. -/
theorem c10_witness :
    (weatherGet 1 "temperature"
      (some ⟨200, .json ⟨some 1025, some "fail", some .null⟩⟩) ⟨0, .bool false⟩).1 = none := by
  have h := (c10_weather_getter_asymmetric_defaults 1 "temperature"
    (some ⟨200, .json ⟨some 1025, some "fail", some .null⟩⟩) ⟨0, .bool false⟩).1
  exact h (.alpaca 1025 "fail") rfl

/-- Every wire request of one adapter call carries the freshly
incremented counter value, and the call leaves the counter at exactly
that value. -/
theorem runOp_requests_tid (clientId : Nat) (op : AlpacaOp) (s : DevState) :
    (∀ r ∈ (runOp clientId op s).2.1, r.tid = s.transactionId + 1)
    ∧ (runOp clientId op s).2.2.transactionId = s.transactionId + 1 := by
  cases op with
  | getOp command extra resp =>
    simp [runOp, getRequest, buildParams, getTransactionId]
  | putOp command data extra r1 r2 =>
    cases h1 : callOutcome r1 with
    | ok env => simp [runOp, putRequest, buildParams, getTransactionId, h1]
    | error e =>
      cases h2 : callOutcome r2 <;>
        simp [runOp, putRequest, buildParams, getTransactionId, h1, h2]

/-- C2 (counterexample): a PUT whose first encoding attempt fails issues
two HTTP requests carrying the same `ClientTransactionID`, so the
sequence of IDs across the HTTP requests actually issued is not strictly
increasing and an ID is reused. -/
theorem c2_counterexample :
    ((runOps 1 [.putOp "connected" [("Connected", .str "true")] [] none none]
        ⟨0, .bool false⟩).1.map (fun g => g.map WireRequest.tid)) = [[1, 1]]
    ∧ ¬ List.Pairwise (fun a b : Nat => a < b) [1, 1] :=
  ⟨rfl, by decide⟩

/-- C2 (amended): the transaction counter is incremented exactly once
per adapter call, so over N sequential calls the per-call
`ClientTransactionID` values are `t+1, ..., t+N` — strictly increasing
with no ID reused across calls; every wire request of the k-th call
carries that call's ID (in particular, the second HTTP request of a PUT
encoding fallback reuses the first attempt's ID rather than drawing a
fresh one). -/
theorem c2_transaction_id_per_call (clientId : Nat) :
    ∀ (ops : List AlpacaOp) (s : DevState),
      ((runOps clientId ops s).1.length = ops.length)
      ∧ ((runOps clientId ops s).2.transactionId = s.transactionId + ops.length)
      ∧ (∀ i, ∀ hi : i < (runOps clientId ops s).1.length,
          ∀ r ∈ (runOps clientId ops s).1.get ⟨i, hi⟩,
            r.tid = s.transactionId + i + 1) := by
  intro ops
  induction ops with
  | nil =>
    intro s
    refine ⟨rfl, by simp [runOps], ?_⟩
    intro i hi
    simp [runOps] at hi
  | cons op rest ih =>
    intro s
    have hstep := runOp_requests_tid clientId op s
    obtain ⟨hlen, hfin, hgrp⟩ := ih (runOp clientId op s).2.2
    refine ⟨?_, ?_, ?_⟩
    · simp [runOps, hlen]
    · simp only [runOps, List.length_cons]
      rw [hfin, hstep.2]
      omega
    · intro i hi r hr
      match i with
      | 0 =>
        simp only [runOps, List.get] at hr
        exact hstep.1 r hr
      | Nat.succ j =>
        simp only [runOps, List.get, List.length_cons] at hr hi
        have := hgrp j (by omega) r hr
        rw [this, hstep.2]
        omega

/-- Witness for C2's amended theorem: the single GET of a fresh client
carries transaction ID 1. -/
theorem c2_witness :
    (⟨"GET", "name",
      dictUpdate [("ClientID", JVal.num 5), ("ClientTransactionID", JVal.num 1)] [],
      [], 1⟩ : WireRequest).tid = 0 + 0 + 1 :=
  (c2_transaction_id_per_call 5 [.getOp "name" [] none] ⟨0, .bool false⟩).2.2 0
    (by decide) _ (by decide)

/-- The adapter never produces a `ValueError`: its failures are
transport, decode, or device errors. -/
theorem callOutcome_ne_valueError (resp : Resp) :
    callOutcome resp ≠ .error .valueError := by
  cases resp with
  | none => simp [callOutcome]
  | some r =>
    simp only [callOutcome, handleResponse]
    split
    · simp
    · split
      · simp
      · split <;> simp

/-- C5 (counterexample): `TelescopeDriver.slew_to_coordinates` performs
no argument validation: called with ra = 24.0 (which the claim says must
fail validation before any network call) against a compliant server it
issues its network requests (set-target PUTs, the slew PUT, the slewing
poll) and reports success. -/
theorem c5_counterexample :
    (driverSlewToCoordinates 1 24 0
        ⟨some ⟨200, .json ⟨some 0, none, none⟩⟩, some ⟨200, .json ⟨some 0, none, none⟩⟩,
         some ⟨200, .json ⟨some 0, none, none⟩⟩, some ⟨200, .json ⟨some 0, none, none⟩⟩,
         some ⟨200, .json ⟨some 0, none, none⟩⟩, some ⟨200, .json ⟨some 0, none, none⟩⟩,
         [some ⟨200, .json ⟨some 0, none, some (.bool false)⟩⟩]⟩
        ⟨0, .bool false⟩).1 = true
    ∧ ((driverSlewToCoordinates 1 24 0
        ⟨some ⟨200, .json ⟨some 0, none, none⟩⟩, some ⟨200, .json ⟨some 0, none, none⟩⟩,
         some ⟨200, .json ⟨some 0, none, none⟩⟩, some ⟨200, .json ⟨some 0, none, none⟩⟩,
         some ⟨200, .json ⟨some 0, none, none⟩⟩, some ⟨200, .json ⟨some 0, none, none⟩⟩,
         [some ⟨200, .json ⟨some 0, none, some (.bool false)⟩⟩]⟩
        ⟨0, .bool false⟩).2.1.map WireRequest.command)
      = ["targetrightascension", "targetdeclination", "slewtocoordinates", "slewing"] :=
  ⟨rfl, rfl⟩

/-- C5 (amended): `AlpacaClient.slew_to_coordinates_async` validates its
arguments before any network call — it requires 0 ≤ ra < 24 and
-90 ≤ dec ≤ 90 and raises `ValueError` with no request issued otherwise;
in particular ra = 24.0 fails (upper bound exclusive), ra = 23.999 with
dec = 90 passes validation, and dec = 90.1 fails.  The façade method
`TelescopeDriver.slew_to_coordinates`, by contrast, performs no such
validation (see the counterexample). -/
theorem c5_async_slew_validation (clientId : Nat) (ra dec : Rat) (resp : Resp)
    (s : DevState) :
    ((ra < 0 ∨ 24 ≤ ra ∨ dec < -90 ∨ 90 < dec) →
      slewToCoordinatesAsync clientId ra dec resp s = (.error .valueError, [], s))
    ∧ (0 ≤ ra → ra < 24 → -90 ≤ dec → dec ≤ 90 →
      (slewToCoordinatesAsync clientId ra dec resp s).1 ≠ .error .valueError
      ∧ (slewToCoordinatesAsync clientId ra dec resp s).2.1
        = [⟨"PUT", "slewtocoordinatesasync", [],
            [("ClientID", .num clientId), ("ClientTransactionID", .num (s.transactionId + 1)),
             ("RightAscension", .num ra), ("Declination", .num dec)], s.transactionId + 1⟩])
    ∧ (slewToCoordinatesAsync clientId 24 0 resp s).1 = .error .valueError
    ∧ (slewToCoordinatesAsync clientId 24 0 resp s).2.1 = []
    ∧ (slewToCoordinatesAsync clientId (23999/1000) 90 resp s).1 ≠ .error .valueError
    ∧ (slewToCoordinatesAsync clientId 0 (901/10) resp s).1 = .error .valueError := by
  have hbad : ∀ (ra' dec' : Rat), (ra' < 0 ∨ 24 ≤ ra' ∨ dec' < -90 ∨ 90 < dec') →
      slewToCoordinatesAsync clientId ra' dec' resp s = (.error .valueError, [], s) := by
    intro ra' dec' h
    unfold slewToCoordinatesAsync
    rcases h with h | h | h | h
    · rw [if_pos (Or.inl h)]
    · rw [if_pos (Or.inr h)]
    · by_cases hra : ra' < 0 ∨ 24 ≤ ra'
      · rw [if_pos hra]
      · rw [if_neg hra, if_pos (Or.inl h)]
    · by_cases hra : ra' < 0 ∨ 24 ≤ ra'
      · rw [if_pos hra]
      · rw [if_neg hra, if_pos (Or.inr h)]
  have hgood : ∀ (ra' dec' : Rat), ¬(ra' < 0 ∨ 24 ≤ ra') → ¬(dec' < -90 ∨ 90 < dec') →
      (slewToCoordinatesAsync clientId ra' dec' resp s).1 ≠ .error .valueError
      ∧ (slewToCoordinatesAsync clientId ra' dec' resp s).2.1
        = [⟨"PUT", "slewtocoordinatesasync", [],
            [("ClientID", .num clientId), ("ClientTransactionID", .num (s.transactionId + 1)),
             ("RightAscension", .num ra'), ("Declination", .num dec')], s.transactionId + 1⟩] := by
    intro ra' dec' hra hdec
    unfold slewToCoordinatesAsync
    rw [if_neg hra, if_neg hdec]
    cases h : callOutcome resp with
    | ok env => simp [getTransactionId, h]
    | error e =>
      refine ⟨?_, by simp [getTransactionId, h]⟩
      simp only [getTransactionId, h]
      intro heq
      have : e = .valueError := by
        have := congrArg (fun x : Except PyErr Unit =>
          match x with | .error e' => e' | .ok _ => .valueError) heq
        simpa using this
      exact callOutcome_ne_valueError resp (this ▸ h)
  refine ⟨hbad ra dec, ?_, (hbad 24 0 (by norm_num)).symm ▸ rfl,
    (hbad 24 0 (by norm_num)).symm ▸ rfl, ?_, (hbad 0 (901/10) (by norm_num)).symm ▸ rfl⟩
  · intro h1 h2 h3 h4
    exact hgood ra dec (by push_neg; exact ⟨h1, h2⟩) (by push_neg; exact ⟨h3, h4⟩)
  · exact (hgood (23999/1000) 90 (by norm_num) (by norm_num)).1

/-- Witness for C5's amended theorem: in-range coordinates pass
validation and produce exactly one PUT request. -/
theorem c5_witness :
    (slewToCoordinatesAsync 1 (23999/1000) 90 none ⟨0, .bool false⟩).1
      ≠ .error .valueError :=
  (c5_async_slew_validation 1 (23999/1000) 90 none ⟨0, .bool false⟩).2.2.2.2.1

/-- A PUT leaves the device state with only the transaction counter
bumped. -/
theorem putRequest_state (clientId : Nat) (command : String)
    (data extra : List (String × JVal)) (r1 r2 : Resp) (s : DevState) :
    (putRequest clientId command data extra r1 r2 s).2.2
      = { s with transactionId := s.transactionId + 1 } := by
  cases h1 : callOutcome r1 with
  | ok env => simp [putRequest, buildParams, getTransactionId, h1]
  | error e =>
    cases h2 : callOutcome r2 <;>
      simp [putRequest, buildParams, getTransactionId, h1, h2]

/-- Python `==` between two booleans coincides with boolean equality. -/
theorem pyEq_bool_bool (a b : Bool) : pyEq (.bool a) (.bool b) = (a == b) := by
  cases a <;> cases b <;> simp [pyEq, pyNum]

/-- C8 (counterexample): on a device whose cached flag is `True`, a
`disconnect()` whose set-connected-false write fails (connection error
on both encoding attempts) reports failure and leaves the cached
connected flag `True` — the client-side view does not transition to
Disconnected. -/
theorem c8_counterexample :
    (disconnect 1 none none none ⟨0, .bool true⟩).1 = false
    ∧ (disconnect 1 none none none ⟨0, .bool true⟩).2.2.connected = .bool true :=
  ⟨rfl, rfl⟩

/-- C8 (amended): `disconnect()` issues the set-connected-false write;
when the write succeeds, the client-side view does transition to
Disconnected even if the verification read fails (a failed read counts
as reading `False`, which matches the target, so the cached flag is set
to `False` and success is reported); but when the write itself fails,
`disconnect()` reports failure and leaves the cached connected flag
unchanged — a client that was connected remains marked connected; and
when the write succeeds but the verification reads a value other than
`False`, failure is reported and the cache holds the value read. -/
theorem c8_disconnect_failure_semantics (clientId : Nat) (putR1 putR2 verify : Resp)
    (s : DevState) :
    (∀ e, (putRequest clientId "connected" (connectedFormData false) [] putR1 putR2 s).1
        = .error e →
      (disconnect clientId putR1 putR2 verify s).1 = false
      ∧ (disconnect clientId putR1 putR2 verify s).2.2.connected = s.connected)
    ∧ (∀ env, (putRequest clientId "connected" (connectedFormData false) [] putR1 putR2 s).1
        = .ok env →
      (∀ e, callOutcome verify = .error e →
        (disconnect clientId putR1 putR2 verify s).1 = true
        ∧ (disconnect clientId putR1 putR2 verify s).2.2.connected = .bool false)
      ∧ (∀ venv, callOutcome verify = .ok venv →
        (pyEq (venv.value.getD (.bool false)) (.bool false) = true →
          (disconnect clientId putR1 putR2 verify s).1 = true
          ∧ (disconnect clientId putR1 putR2 verify s).2.2.connected = .bool false)
        ∧ (pyEq (venv.value.getD (.bool false)) (.bool false) = false →
          (disconnect clientId putR1 putR2 verify s).1 = false
          ∧ (disconnect clientId putR1 putR2 verify s).2.2.connected
            = venv.value.getD (.bool false)))) := by
  have hstate := putRequest_state clientId "connected" (connectedFormData false) [] putR1 putR2 s
  rcases hq : putRequest clientId "connected" (connectedFormData false) [] putR1 putR2 s
    with ⟨out, reqs, s1⟩
  rw [hq] at hstate
  simp only at hstate
  subst hstate
  constructor
  · intro e hp
    simp only at hp
    subst hp
    constructor
    · simp [disconnect, setConnected, hq]
    · simp [disconnect, setConnected, hq]
  · intro env hp
    simp only at hp
    subst hp
    constructor
    · intro e hv
      constructor
      · simp [disconnect, setConnected, hq, isConnected, getRequest, buildParams,
          getTransactionId, hv, pyEq_bool_bool]
      · simp [disconnect, setConnected, hq, isConnected, getRequest, buildParams,
          getTransactionId, hv, pyEq_bool_bool]
    · intro venv hv
      constructor
      · intro heq
        constructor
        · simp [disconnect, setConnected, hq, isConnected, getRequest, buildParams,
            getTransactionId, hv, heq]
        · simp [disconnect, setConnected, hq, isConnected, getRequest, buildParams,
            getTransactionId, hv, heq]
      · intro hne
        constructor
        · simp [disconnect, setConnected, hq, isConnected, getRequest, buildParams,
            getTransactionId, hv, hne]
        · simp [disconnect, setConnected, hq, isConnected, getRequest, buildParams,
            getTransactionId, hv, hne]

/-- Witness for C8's amended theorem: successful write, failed
verification read — the cached flag still becomes `False` and
disconnect reports success. -/
theorem c8_witness :
    (disconnect 1 (some ⟨200, .json ⟨some 0, none, none⟩⟩) none none ⟨0, .bool true⟩).1 = true
    ∧ (disconnect 1 (some ⟨200, .json ⟨some 0, none, none⟩⟩) none none
        ⟨0, .bool true⟩).2.2.connected = .bool false :=
  ((c8_disconnect_failure_semantics 1 (some ⟨200, .json ⟨some 0, none, none⟩⟩) none none
      ⟨0, .bool true⟩).2 ⟨some 0, none, none⟩ rfl).1 .connection rfl

/-- `is_connected` always issues exactly one GET to `connected`. -/
theorem isConnected_requests (clientId : Nat) (resp : Resp) (s : DevState) :
    (isConnected clientId resp s).2.1
      = [⟨"GET", "connected", (buildParams clientId [] s).1, [], s.transactionId + 1⟩] := by
  cases h : callOutcome resp <;>
    simp [isConnected, getRequest, buildParams, getTransactionId, h]

/-- `is_connected` bumps the transaction counter exactly once. -/
theorem isConnected_state_tid (clientId : Nat) (resp : Resp) (s : DevState) :
    (isConnected clientId resp s).2.2.transactionId = s.transactionId + 1 := by
  cases h : callOutcome resp <;>
    simp [isConnected, getRequest, buildParams, getTransactionId, h]

/-- Every wire request of a `_put_request` is a PUT to its command
carrying the freshly assigned transaction ID, and there are at most two
of them. -/
theorem putRequest_requests_put (clientId : Nat) (command : String)
    (data extra : List (String × JVal)) (r1 r2 : Resp) (s : DevState) :
    (∀ r ∈ (putRequest clientId command data extra r1 r2 s).2.1,
      r.verb = "PUT" ∧ r.command = command ∧ r.tid = s.transactionId + 1)
    ∧ (putRequest clientId command data extra r1 r2 s).2.1.length ≤ 2 := by
  cases h1 : callOutcome r1 with
  | ok env => simp [putRequest, buildParams, getTransactionId, h1]
  | error e =>
    cases h2 : callOutcome r2 <;>
      simp [putRequest, buildParams, getTransactionId, h1, h2]

/-- The PUT requests of one `set_connected` call are exactly its inner
`_put_request`'s wire requests (the optional verification read is a
GET). -/
theorem setConnected_put_filter (clientId : Nat) (target : Bool) (r1 r2 verify : Resp)
    (s : DevState) :
    ((setConnected clientId target r1 r2 verify s).2.1.filter (fun r => r.verb == "PUT"))
      = (putRequest clientId "connected" (connectedFormData target) [] r1 r2 s).2.1 := by
  have hput := putRequest_requests_put clientId "connected" (connectedFormData target) [] r1 r2 s
  have hfilter : ((putRequest clientId "connected" (connectedFormData target) [] r1 r2 s).2.1.filter
      (fun r => r.verb == "PUT"))
      = (putRequest clientId "connected" (connectedFormData target) [] r1 r2 s).2.1 := by
    rw [List.filter_eq_self]
    intro r hr
    simp [(hput.1 r hr).1]
  rcases hq : putRequest clientId "connected" (connectedFormData target) [] r1 r2 s
    with ⟨out, reqs, s1⟩
  rw [hq] at hfilter
  simp only at hfilter
  cases out with
  | error e => simp [setConnected, hq, hfilter]
  | ok env =>
    rcases hv : isConnected clientId verify s1 with ⟨cur, vreqs, s2⟩
    have hvreq := isConnected_requests clientId verify s1
    rw [hv] at hvreq
    simp only at hvreq
    cases hp : pyEq cur (.bool target) <;>
      simp [setConnected, hq, hv, hp, hfilter, hvreq]

/-- The PUT requests of a whole `connect()` run are either none (device
already connected) or exactly the single `set_connected` write's wire
requests. -/
theorem connect_put_filter (clientId : Nat) (o : ConnectOracle) (s : DevState) :
    ((connect clientId o s).2.1.filter (fun r => r.verb == "PUT")) = []
    ∨ ((connect clientId o s).2.1.filter (fun r => r.verb == "PUT"))
      = (putRequest clientId "connected" (connectedFormData true) [] o.putR1 o.putR2
          (isConnected clientId o.check s).2.2).2.1 := by
  rcases hc : isConnected clientId o.check s with ⟨c0, reqs0, s0⟩
  have hreqs0 : reqs0
      = [⟨"GET", "connected", (buildParams clientId [] s).1, [], s.transactionId + 1⟩] := by
    have h := isConnected_requests clientId o.check s
    rw [hc] at h
    simpa using h
  cases h0 : pyTruth c0 with
  | true =>
    left
    simp [connect, hc, h0, hreqs0, List.filter]
  | false =>
    rcases hs : setConnected clientId true o.putR1 o.putR2 o.verify s0 with ⟨ok1, reqs1, s1⟩
    have hfilter1 : reqs1.filter (fun r => r.verb == "PUT")
        = (putRequest clientId "connected" (connectedFormData true) [] o.putR1 o.putR2 s0).2.1 := by
      have h := setConnected_put_filter clientId true o.putR1 o.putR2 o.verify s0
      rw [hs] at h
      simpa using h
    cases ok1 with
    | false =>
      right
      simp [connect, hc, h0, hs, List.filter_append, hreqs0, hfilter1, List.filter]
    | true =>
      right
      rcases hc2 : isConnected clientId o.confirm s1 with ⟨c2, reqs2, s2⟩
      have hreqs2 : reqs2
          = [⟨"GET", "connected", (buildParams clientId [] s1).1, [], s1.transactionId + 1⟩] := by
        have h := isConnected_requests clientId o.confirm s1
        rw [hc2] at h
        simpa using h
      simp [connect, hc, h0, hs, hc2, List.filter_append, hreqs0, hreqs2, hfilter1, List.filter]

/-- C7 (counterexample): with a server that reports not-connected and
then refuses the set-connected write, `connect()` reports failure after
a single write attempt — one GET and the write's two encoding attempts,
with no further write/verify rounds (no retry budget of ~3 attempts
exists). -/
theorem c7_counterexample :
    (connect 1 ⟨some ⟨200, .json ⟨some 0, none, some (.bool false)⟩⟩, none, none, none, none⟩
        ⟨0, .bool false⟩).1 = false
    ∧ ((connect 1 ⟨some ⟨200, .json ⟨some 0, none, some (.bool false)⟩⟩, none, none, none, none⟩
        ⟨0, .bool false⟩).2.1.map (fun r => (r.verb, r.command)))
      = [("GET", "connected"), ("PUT", "connected"), ("PUT", "connected")] :=
  ⟨rfl, rfl⟩

/-- C7 (amended): `connect()` on an already-connected device is a no-op
returning success after the single connected-state read; otherwise it
calls `set_connected(True)` exactly once — issuing the
set-connected-true write (at most two wire attempts via the encoding
fallback, all carrying one transaction ID) and verifying by re-reading
the connected state — and, on failure of that single attempt, reports
failure immediately: there is no wait and no retry budget.  On success
of the attempt it re-reads the connected state once more and returns
that value's truthiness. -/
theorem c7_connect_single_attempt (clientId : Nat) (o : ConnectOracle) (s : DevState) :
    (pyTruth (isConnected clientId o.check s).1 = true →
      connect clientId o s
        = (true, (isConnected clientId o.check s).2.1, (isConnected clientId o.check s).2.2))
    ∧ (pyTruth (isConnected clientId o.check s).1 = false →
      (setConnected clientId true o.putR1 o.putR2 o.verify
          (isConnected clientId o.check s).2.2).1 = false →
      connect clientId o s
        = (false,
           (isConnected clientId o.check s).2.1
             ++ (setConnected clientId true o.putR1 o.putR2 o.verify
                  (isConnected clientId o.check s).2.2).2.1,
           (setConnected clientId true o.putR1 o.putR2 o.verify
              (isConnected clientId o.check s).2.2).2.2))
    ∧ (pyTruth (isConnected clientId o.check s).1 = false →
      (setConnected clientId true o.putR1 o.putR2 o.verify
          (isConnected clientId o.check s).2.2).1 = true →
      connect clientId o s
        = (pyTruth (isConnected clientId o.confirm
             (setConnected clientId true o.putR1 o.putR2 o.verify
               (isConnected clientId o.check s).2.2).2.2).1,
           (isConnected clientId o.check s).2.1
             ++ (setConnected clientId true o.putR1 o.putR2 o.verify
                  (isConnected clientId o.check s).2.2).2.1
             ++ (isConnected clientId o.confirm
                  (setConnected clientId true o.putR1 o.putR2 o.verify
                    (isConnected clientId o.check s).2.2).2.2).2.1,
           (isConnected clientId o.confirm
              (setConnected clientId true o.putR1 o.putR2 o.verify
                (isConnected clientId o.check s).2.2).2.2).2.2))
    ∧ ((connect clientId o s).2.1.filter (fun r => r.verb == "PUT")).length ≤ 2
    ∧ (∀ r ∈ (connect clientId o s).2.1.filter (fun r => r.verb == "PUT"),
        r.command = "connected" ∧ r.tid = s.transactionId + 2) := by
  have hA : pyTruth (isConnected clientId o.check s).1 = true →
      connect clientId o s
        = (true, (isConnected clientId o.check s).2.1, (isConnected clientId o.check s).2.2) := by
    intro h0
    rcases hc : isConnected clientId o.check s with ⟨c0, reqs0, s0⟩
    rw [hc] at h0
    simp only at h0
    simp [connect, hc, h0]
  have hB : pyTruth (isConnected clientId o.check s).1 = false →
      (setConnected clientId true o.putR1 o.putR2 o.verify
          (isConnected clientId o.check s).2.2).1 = false →
      connect clientId o s
        = (false,
           (isConnected clientId o.check s).2.1
             ++ (setConnected clientId true o.putR1 o.putR2 o.verify
                  (isConnected clientId o.check s).2.2).2.1,
           (setConnected clientId true o.putR1 o.putR2 o.verify
              (isConnected clientId o.check s).2.2).2.2) := by
    intro h0 h1
    rcases hc : isConnected clientId o.check s with ⟨c0, reqs0, s0⟩
    rw [hc] at h0 h1
    simp only at h0 h1
    rcases hs : setConnected clientId true o.putR1 o.putR2 o.verify s0 with ⟨ok1, reqs1, s1⟩
    rw [hs] at h1
    simp only at h1
    simp [connect, hc, h0, hs, h1]
  have hC : pyTruth (isConnected clientId o.check s).1 = false →
      (setConnected clientId true o.putR1 o.putR2 o.verify
          (isConnected clientId o.check s).2.2).1 = true →
      connect clientId o s
        = (pyTruth (isConnected clientId o.confirm
             (setConnected clientId true o.putR1 o.putR2 o.verify
               (isConnected clientId o.check s).2.2).2.2).1,
           (isConnected clientId o.check s).2.1
             ++ (setConnected clientId true o.putR1 o.putR2 o.verify
                  (isConnected clientId o.check s).2.2).2.1
             ++ (isConnected clientId o.confirm
                  (setConnected clientId true o.putR1 o.putR2 o.verify
                    (isConnected clientId o.check s).2.2).2.2).2.1,
           (isConnected clientId o.confirm
              (setConnected clientId true o.putR1 o.putR2 o.verify
                (isConnected clientId o.check s).2.2).2.2).2.2) := by
    intro h0 h1
    rcases hc : isConnected clientId o.check s with ⟨c0, reqs0, s0⟩
    rw [hc] at h0 h1
    simp only at h0 h1
    rcases hs : setConnected clientId true o.putR1 o.putR2 o.verify s0 with ⟨ok1, reqs1, s1⟩
    rw [hs] at h1
    simp only at h1
    simp [connect, hc, h0, hs, h1]
  refine ⟨hA, hB, hC, ?_, ?_⟩
  · rcases connect_put_filter clientId o s with h | h
    · simp [h]
    · rw [h]
      exact (putRequest_requests_put clientId "connected" (connectedFormData true) []
        o.putR1 o.putR2 (isConnected clientId o.check s).2.2).2
  · intro r hr
    rcases connect_put_filter clientId o s with h | h
    · rw [h] at hr
      simp at hr
    · rw [h] at hr
      have hput := (putRequest_requests_put clientId "connected" (connectedFormData true) []
        o.putR1 o.putR2 (isConnected clientId o.check s).2.2).1 r hr
      refine ⟨hput.2.1, ?_⟩
      rw [hput.2.2, isConnected_state_tid]

/-- Witness for C7's amended theorem: an already-connected device makes
`connect()` a no-op success. -/
theorem c7_witness :
    connect 1 ⟨some ⟨200, .json ⟨some 0, none, some (.bool true)⟩⟩, none, none, none, none⟩
        ⟨0, .bool false⟩
      = (true,
         (isConnected 1 (some ⟨200, .json ⟨some 0, none, some (.bool true)⟩⟩)
           ⟨0, .bool false⟩).2.1,
         (isConnected 1 (some ⟨200, .json ⟨some 0, none, some (.bool true)⟩⟩)
           ⟨0, .bool false⟩).2.2) :=
  (c7_connect_single_attempt 1
    ⟨some ⟨200, .json ⟨some 0, none, some (.bool true)⟩⟩, none, none, none, none⟩
    ⟨0, .bool false⟩).1 rfl

/-- With the cover-moving capability flag stuck at unsupported, a
`get_cover_moving` call touches only the `coverstate` endpoint, leaves
the flag stuck, and derives its result from the state string. -/
theorem getCoverMoving_unsupported (clientId : Nat) (o : ProbeOracle) (s : CCState)
    (h : s.supportsCoverMoving = some false) :
    countCommand "covermoving" (getCoverMoving clientId o s).2.1 = 0
    ∧ (getCoverMoving clientId o s).2.2.supportsCoverMoving = some false
    ∧ (getCoverMoving clientId o s).1
      = (stateFromOutcome coverStateMap (callOutcome o.stateResp) == "Moving") := by
  refine ⟨?_, ?_, ?_⟩ <;>
    simp [getCoverMoving, h, getCoverState, getRequest, buildParams, getTransactionId,
      countCommand]

/-- A failed probe of the `covermoving` endpoint marks it unsupported,
issues exactly one request to it, and falls back to the state string. -/
theorem getCoverMoving_probe_failure (clientId : Nat) (o : ProbeOracle) (s : CCState)
    (e : PyErr) (h : s.supportsCoverMoving ≠ some false)
    (he : callOutcome o.endpointResp = .error e) :
    (getCoverMoving clientId o s).2.2.supportsCoverMoving = some false
    ∧ countCommand "covermoving" (getCoverMoving clientId o s).2.1 = 1
    ∧ (getCoverMoving clientId o s).1
      = (stateFromOutcome coverStateMap (callOutcome o.stateResp) == "Moving") := by
  refine ⟨?_, ?_, ?_⟩ <;>
    simp [getCoverMoving, h, he, getCoverState, getRequest, buildParams, getTransactionId,
      countCommand]

/-- Once the cover-moving flag is unsupported, a whole run of
`get_cover_moving` calls never touches the `covermoving` endpoint. -/
theorem runCoverMoving_unsupported (clientId : Nat) (oracles : List ProbeOracle)
    (s : CCState) (h : s.supportsCoverMoving = some false) :
    countCommand "covermoving" (runCoverMoving clientId oracles s).1 = 0
    ∧ (runCoverMoving clientId oracles s).2.supportsCoverMoving = some false := by
  induction oracles generalizing s with
  | nil => simp [runCoverMoving, countCommand, h]
  | cons o rest ih =>
    have hstep := getCoverMoving_unsupported clientId o s h
    have hrest := ih ((getCoverMoving clientId o s).2.2) hstep.2.1
    constructor
    · simp only [runCoverMoving, countCommand, List.filter_append, List.length_append]
      have h1 : countCommand "covermoving" (getCoverMoving clientId o s).2.1 = 0 := hstep.1
      have h2 : countCommand "covermoving"
          (runCoverMoving clientId rest (getCoverMoving clientId o s).2.2).1 = 0 := hrest.1
      simp only [countCommand] at h1 h2
      omega
    · simp only [runCoverMoving]
      exact hrest.2

/-- Analogue of `getCoverMoving_unsupported` for the calibrator. -/
theorem getCalibratorChanging_unsupported (clientId : Nat) (o : ProbeOracle) (s : CCState)
    (h : s.supportsCalibratorChanging = some false) :
    countCommand "calibratorchanging" (getCalibratorChanging clientId o s).2.1 = 0
    ∧ (getCalibratorChanging clientId o s).2.2.supportsCalibratorChanging = some false
    ∧ (getCalibratorChanging clientId o s).1
      = (stateFromOutcome calibratorStateMap (callOutcome o.stateResp)
          == "CalibrationRequired") := by
  refine ⟨?_, ?_, ?_⟩ <;>
    simp [getCalibratorChanging, h, getCalibratorState, getRequest, buildParams,
      getTransactionId, countCommand]

/-- Analogue of `getCoverMoving_probe_failure` for the calibrator. -/
theorem getCalibratorChanging_probe_failure (clientId : Nat) (o : ProbeOracle) (s : CCState)
    (e : PyErr) (h : s.supportsCalibratorChanging ≠ some false)
    (he : callOutcome o.endpointResp = .error e) :
    (getCalibratorChanging clientId o s).2.2.supportsCalibratorChanging = some false
    ∧ countCommand "calibratorchanging" (getCalibratorChanging clientId o s).2.1 = 1
    ∧ (getCalibratorChanging clientId o s).1
      = (stateFromOutcome calibratorStateMap (callOutcome o.stateResp)
          == "CalibrationRequired") := by
  refine ⟨?_, ?_, ?_⟩ <;>
    simp [getCalibratorChanging, h, he, getCalibratorState, getRequest, buildParams,
      getTransactionId, countCommand]

/-- Analogue of `runCoverMoving_unsupported` for the calibrator. -/
theorem runCalibratorChanging_unsupported (clientId : Nat) (oracles : List ProbeOracle)
    (s : CCState) (h : s.supportsCalibratorChanging = some false) :
    countCommand "calibratorchanging" (runCalibratorChanging clientId oracles s).1 = 0
    ∧ (runCalibratorChanging clientId oracles s).2.supportsCalibratorChanging
      = some false := by
  induction oracles generalizing s with
  | nil => simp [runCalibratorChanging, countCommand, h]
  | cons o rest ih =>
    have hstep := getCalibratorChanging_unsupported clientId o s h
    have hrest := ih ((getCalibratorChanging clientId o s).2.2) hstep.2.1
    constructor
    · simp only [runCalibratorChanging, countCommand, List.filter_append, List.length_append]
      have h1 : countCommand "calibratorchanging" (getCalibratorChanging clientId o s).2.1 = 0 :=
        hstep.1
      have h2 : countCommand "calibratorchanging"
          (runCalibratorChanging clientId rest (getCalibratorChanging clientId o s).2.2).1 = 0 :=
        hrest.1
      simp only [countCommand] at h1 h2
      omega
    · simp only [runCalibratorChanging]
      exact hrest.2

/-- C3: after the first failed probe of `covermoving` /
`calibratorchanging`, the capability flag is stuck at unsupported, every
subsequent `get_cover_moving` / `get_calibrator_changing` call issues no
request to that endpoint and derives its result from the state string
(cover state equal to "Moving", calibrator state equal to
"CalibrationRequired"); over any run of calls against a server on which
the endpoint always fails, at most one request is ever made to it. -/
theorem c3_capability_flag_stickiness (clientId : Nat) :
    (∀ (o : ProbeOracle) (s : CCState), s.supportsCoverMoving = some false →
      countCommand "covermoving" (getCoverMoving clientId o s).2.1 = 0
      ∧ (getCoverMoving clientId o s).1
        = (stateFromOutcome coverStateMap (callOutcome o.stateResp) == "Moving"))
    ∧ (∀ (o : ProbeOracle) (s : CCState) (e : PyErr), s.supportsCoverMoving ≠ some false →
      callOutcome o.endpointResp = .error e →
      (getCoverMoving clientId o s).2.2.supportsCoverMoving = some false)
    ∧ (∀ (oracles : List ProbeOracle) (s : CCState), s.supportsCoverMoving ≠ some true →
      (∀ o ∈ oracles, ∃ e, callOutcome o.endpointResp = .error e) →
      countCommand "covermoving" (runCoverMoving clientId oracles s).1 ≤ 1)
    ∧ (∀ (o : ProbeOracle) (s : CCState), s.supportsCalibratorChanging = some false →
      countCommand "calibratorchanging" (getCalibratorChanging clientId o s).2.1 = 0
      ∧ (getCalibratorChanging clientId o s).1
        = (stateFromOutcome calibratorStateMap (callOutcome o.stateResp)
            == "CalibrationRequired"))
    ∧ (∀ (o : ProbeOracle) (s : CCState) (e : PyErr),
      s.supportsCalibratorChanging ≠ some false →
      callOutcome o.endpointResp = .error e →
      (getCalibratorChanging clientId o s).2.2.supportsCalibratorChanging = some false)
    ∧ (∀ (oracles : List ProbeOracle) (s : CCState),
      s.supportsCalibratorChanging ≠ some true →
      (∀ o ∈ oracles, ∃ e, callOutcome o.endpointResp = .error e) →
      countCommand "calibratorchanging" (runCalibratorChanging clientId oracles s).1 ≤ 1) := by
  refine ⟨?_, ?_, ?_, ?_, ?_, ?_⟩
  · intro o s h
    exact ⟨(getCoverMoving_unsupported clientId o s h).1,
      (getCoverMoving_unsupported clientId o s h).2.2⟩
  · intro o s e h he
    exact (getCoverMoving_probe_failure clientId o s e h he).1
  · intro oracles s hs hall
    cases oracles with
    | nil => simp [runCoverMoving, countCommand]
    | cons o rest =>
      by_cases hf : s.supportsCoverMoving = some false
      · have hstep := getCoverMoving_unsupported clientId o s hf
        have hrest := runCoverMoving_unsupported clientId rest
          ((getCoverMoving clientId o s).2.2) hstep.2.1
        simp only [runCoverMoving, countCommand, List.filter_append, List.length_append]
        have h1 := hstep.1
        have h2 := hrest.1
        simp only [countCommand] at h1 h2
        omega
      · obtain ⟨e, he⟩ := hall o (by simp)
        have hstep := getCoverMoving_probe_failure clientId o s e hf he
        have hrest := runCoverMoving_unsupported clientId rest
          ((getCoverMoving clientId o s).2.2) hstep.1
        simp only [runCoverMoving, countCommand, List.filter_append, List.length_append]
        have h1 := hstep.2.1
        have h2 := hrest.1
        simp only [countCommand] at h1 h2
        omega
  · intro o s h
    exact ⟨(getCalibratorChanging_unsupported clientId o s h).1,
      (getCalibratorChanging_unsupported clientId o s h).2.2⟩
  · intro o s e h he
    exact (getCalibratorChanging_probe_failure clientId o s e h he).1
  · intro oracles s hs hall
    cases oracles with
    | nil => simp [runCalibratorChanging, countCommand]
    | cons o rest =>
      by_cases hf : s.supportsCalibratorChanging = some false
      · have hstep := getCalibratorChanging_unsupported clientId o s hf
        have hrest := runCalibratorChanging_unsupported clientId rest
          ((getCalibratorChanging clientId o s).2.2) hstep.2.1
        simp only [runCalibratorChanging, countCommand, List.filter_append, List.length_append]
        have h1 := hstep.1
        have h2 := hrest.1
        simp only [countCommand] at h1 h2
        omega
      · obtain ⟨e, he⟩ := hall o (by simp)
        have hstep := getCalibratorChanging_probe_failure clientId o s e hf he
        have hrest := runCalibratorChanging_unsupported clientId rest
          ((getCalibratorChanging clientId o s).2.2) hstep.1
        simp only [runCalibratorChanging, countCommand, List.filter_append, List.length_append]
        have h1 := hstep.2.1
        have h2 := hrest.1
        simp only [countCommand] at h1 h2
        omega

/-- Witness for C3: with the cover-moving flag already unsupported, a
call issues no `covermoving` request and compares the cover state
against "Moving". -/
theorem c3_witness :
    countCommand "covermoving"
      (getCoverMoving 1 ⟨none, none⟩ ⟨⟨0, .bool false⟩, some false, none⟩).2.1 = 0
    ∧ (getCoverMoving 1 ⟨none, none⟩ ⟨⟨0, .bool false⟩, some false, none⟩).1
      = (stateFromOutcome coverStateMap (callOutcome none) == "Moving") :=
  (c3_capability_flag_stickiness 1).1 ⟨none, none⟩ ⟨⟨0, .bool false⟩, some false, none⟩ rfl

/-- `List.lookup` distributes over append: the left list wins. -/
theorem lookup_append (l1 l2 : List (TProp × JVal)) (p : TProp) :
    (l1 ++ l2).lookup p
      = (match l1.lookup p with
         | some v => some v
         | none => l2.lookup p) := by
  induction l1 with
  | nil => simp [List.lookup]
  | cons kv rest ih =>
    rcases kv with ⟨k, v⟩
    by_cases h : p = k
    · simp [List.lookup, h]
    · have hb : (p == k) = false := beq_eq_false_iff_ne.mpr h
      simp [List.lookup, hb, ih]

/-- A guarded entry holds no key other than its own. -/
theorem lookup_guardFetch_ne (f : TProp → Except Unit JVal) (p q : TProp) (h : p ≠ q) :
    (guardFetch f q).lookup p = none := by
  have hb : (p == q) = false := beq_eq_false_iff_ne.mpr h
  cases hf : f q <;> simp [guardFetch, hf, List.lookup, hb]

/-- A guarded entry holds its key exactly when the fetch succeeded. -/
theorem lookup_guardFetch_self (f : TProp → Except Unit JVal) (q : TProp) :
    (guardFetch f q).lookup q
      = (match f q with
         | .ok v => some v
         | .error _ => none) := by
  cases hf : f q <;> simp [guardFetch, hf, List.lookup]

/-- Looking a key up past a head entry with a different key. -/
theorem lookup_cons_ne (p k : TProp) (v : JVal) (t : List (TProp × JVal)) (h : p ≠ k) :
    ((k, v) :: t).lookup p = t.lookup p := by
  have hb : (p == k) = false := beq_eq_false_iff_ne.mpr h
  simp [List.lookup, hb]

/-- Looking up the key of the head entry. -/
theorem lookup_cons_self (k : TProp) (v : JVal) (t : List (TProp × JVal)) :
    ((k, v) :: t).lookup k = some v := by
  simp [List.lookup]

/-- The site block holds only the three site keys. -/
theorem lookup_siteBlock_ne (f : TProp → Except Unit JVal) (p : TProp)
    (h1 : p ≠ .siteLatitude) (h2 : p ≠ .siteLongitude) (h3 : p ≠ .siteElevation) :
    (siteBlock f).lookup p = none := by
  have hb1 : (p == TProp.siteLatitude) = false := beq_eq_false_iff_ne.mpr h1
  have hb2 : (p == TProp.siteLongitude) = false := beq_eq_false_iff_ne.mpr h2
  have hb3 : (p == TProp.siteElevation) = false := beq_eq_false_iff_ne.mpr h3
  cases hla : f .siteLatitude <;> cases hlo : f .siteLongitude <;>
    cases hel : f .siteElevation <;>
      simp [siteBlock, hla, hlo, hel, List.lookup, hb1, hb2, hb3]

/-- C4 (counterexample): in a telescope poll cycle where the declination
fetch throws but every other property fetch succeeds, the cycle aborts
wholesale: the successfully fetched sidereal time does not update the
published snapshot (it stays at its never-succeeded `none`), so it is
not the case that all other properties fetched in that cycle still
update the snapshot. -/
theorem c4_counterexample :
    ((fun p => if p = TProp.declination then Except.error () else Except.ok (JVal.num 1)) :
        TProp → Except Unit JVal) TProp.siderealTime = .ok (.num 1)
    ∧ updateTelescopeData (.ok (.bool true))
        (fun p => if p = TProp.declination then .error () else .ok (.num 1))
        (.ok 0) (.ok "false") (.ok "false") (.ok "0")
        (fun _ => none) TProp.siderealTime = none :=
  ⟨rfl, rfl⟩

/-- C4 (amended): failure isolation in the polling updaters is partial
and per-property defaults are not uniform.  In
`TelescopeUpdater._update_telescope_data`, when the connected check and
the five unguarded coordinate fetches succeed: the individually guarded
properties equatorial system, tracking and slewing update on success and
retain their previous snapshot value on failure; parked, at-home and
tracking-rate are read through the never-raising safe getters of
`AlpacaClientExtension`, so their keys are always written — on total
failure of both the direct endpoint and the command fallback the
snapshot receives the fresh defaults `False`, `False` and `"Unknown"`
respectively, not the previous value; the site fields update on success,
and a failure inside the site block skips its remaining fields, the
skipped ones retaining their previous values.  A failure of the
connected check or of any of the five unguarded coordinate fetches
aborts the whole cycle: no property fetched in that cycle updates the
snapshot, which keeps its previous contents (the polling worker
survives, the cycle result being the unchanged snapshot).  In
`CoverCalibratorUpdater.update_data`, every one of the nine emitted
entries is guarded individually and the emitted value depends only on
its own attribute read — one property's failure never aborts the cycle
or disturbs the others — but a failed read emits that property's fresh
type-specific default (False / "Unknown" / 0 / 100), not a previous
value: the dict is rebuilt from scratch each cycle. -/
theorem c4_partial_failure_isolation (conn : Except Unit JVal)
    (f : TProp → Except Unit JVal) (trackingRateDirect : Except Unit Int)
    (parkedCmd atHomeCmd trackingRateCmd : Except Unit String) (prev : TSnap) :
    (∀ e, conn = .error e →
      updateTelescopeData conn f trackingRateDirect parkedCmd atHomeCmd trackingRateCmd prev
        = prev)
    ∧ (∀ c, conn = .ok c → pyTruth c = false →
      updateTelescopeData conn f trackingRateDirect parkedCmd atHomeCmd trackingRateCmd prev
        = prev)
    ∧ (∀ c, conn = .ok c → pyTruth c = true →
        ((∃ e, f .siderealTime = .error e) ∨ (∃ e, f .rightAscension = .error e)
          ∨ (∃ e, f .declination = .error e) ∨ (∃ e, f .altitude = .error e)
          ∨ (∃ e, f .azimuth = .error e)) →
      updateTelescopeData conn f trackingRateDirect parkedCmd atHomeCmd trackingRateCmd prev
        = prev)
    ∧ (∀ c v1 v2 v3 v4 v5, conn = .ok c → pyTruth c = true →
        f .siderealTime = .ok v1 → f .rightAscension = .ok v2 → f .declination = .ok v3 →
        f .altitude = .ok v4 → f .azimuth = .ok v5 →
        (updateTelescopeData conn f trackingRateDirect parkedCmd atHomeCmd trackingRateCmd
            prev .siderealTime = some v1
         ∧ updateTelescopeData conn f trackingRateDirect parkedCmd atHomeCmd trackingRateCmd
            prev .rightAscension = some v2
         ∧ updateTelescopeData conn f trackingRateDirect parkedCmd atHomeCmd trackingRateCmd
            prev .declination = some v3
         ∧ updateTelescopeData conn f trackingRateDirect parkedCmd atHomeCmd trackingRateCmd
            prev .altitude = some v4
         ∧ updateTelescopeData conn f trackingRateDirect parkedCmd atHomeCmd trackingRateCmd
            prev .azimuth = some v5)
        ∧ (∀ p ∈ [TProp.equatorialSystem, TProp.tracking, TProp.slewing],
            (∀ v, f p = .ok v →
              updateTelescopeData conn f trackingRateDirect parkedCmd atHomeCmd
                trackingRateCmd prev p = some v)
            ∧ (∀ e, f p = .error e →
              updateTelescopeData conn f trackingRateDirect parkedCmd atHomeCmd
                trackingRateCmd prev p = prev p))
        ∧ (updateTelescopeData conn f trackingRateDirect parkedCmd atHomeCmd trackingRateCmd
            prev .parked = some (getParkedSafe (f .parked) parkedCmd)
           ∧ (∀ e e', f .parked = .error e → parkedCmd = .error e' →
              updateTelescopeData conn f trackingRateDirect parkedCmd atHomeCmd
                trackingRateCmd prev .parked = some (.bool false)))
        ∧ (updateTelescopeData conn f trackingRateDirect parkedCmd atHomeCmd trackingRateCmd
            prev .atHome = some (getAtHomeSafe (f .atHome) atHomeCmd)
           ∧ (∀ e e', f .atHome = .error e → atHomeCmd = .error e' →
              updateTelescopeData conn f trackingRateDirect parkedCmd atHomeCmd
                trackingRateCmd prev .atHome = some (.bool false)))
        ∧ (updateTelescopeData conn f trackingRateDirect parkedCmd atHomeCmd trackingRateCmd
            prev .trackingRate
              = some (.str (getTrackingRateSafe trackingRateDirect trackingRateCmd))
           ∧ (∀ e e', trackingRateDirect = .error e → trackingRateCmd = .error e' →
              updateTelescopeData conn f trackingRateDirect parkedCmd atHomeCmd
                trackingRateCmd prev .trackingRate = some (.str "Unknown")))
        ∧ (∀ e, f .siteLatitude = .error e →
            updateTelescopeData conn f trackingRateDirect parkedCmd atHomeCmd trackingRateCmd
              prev .siteLatitude = prev .siteLatitude
            ∧ updateTelescopeData conn f trackingRateDirect parkedCmd atHomeCmd trackingRateCmd
              prev .siteLongitude = prev .siteLongitude
            ∧ updateTelescopeData conn f trackingRateDirect parkedCmd atHomeCmd trackingRateCmd
              prev .siteElevation = prev .siteElevation)
        ∧ (∀ la, f .siteLatitude = .ok la →
            updateTelescopeData conn f trackingRateDirect parkedCmd atHomeCmd trackingRateCmd
              prev .siteLatitude = some la
            ∧ (∀ e, f .siteLongitude = .error e →
                updateTelescopeData conn f trackingRateDirect parkedCmd atHomeCmd
                  trackingRateCmd prev .siteLongitude = prev .siteLongitude
                ∧ updateTelescopeData conn f trackingRateDirect parkedCmd atHomeCmd
                  trackingRateCmd prev .siteElevation = prev .siteElevation)
            ∧ (∀ lo, f .siteLongitude = .ok lo →
                updateTelescopeData conn f trackingRateDirect parkedCmd atHomeCmd
                  trackingRateCmd prev .siteLongitude = some lo
                ∧ (∀ e, f .siteElevation = .error e →
                    updateTelescopeData conn f trackingRateDirect parkedCmd atHomeCmd
                      trackingRateCmd prev .siteElevation = prev .siteElevation)
                ∧ (∀ el, f .siteElevation = .ok el →
                    updateTelescopeData conn f trackingRateDirect parkedCmd atHomeCmd
                      trackingRateCmd prev .siteElevation = some el))))
    ∧ (∀ (g : CCProp → Except Unit JVal) (p : CCProp),
        (∀ v, g p = .ok v → ccUpdateData g p = v)
        ∧ (∀ e, g p = .error e → ccUpdateData g p = ccDefault p))
    ∧ (∀ (g g' : CCProp → Except Unit JVal) (q : CCProp), g q = g' q →
        ccUpdateData g q = ccUpdateData g' q) := by
  refine ⟨?_, ?_, ?_, ?_, ?_, ?_⟩
  · intro e h
    simp [updateTelescopeData, h]
  · intro c h hc
    simp [updateTelescopeData, h, hc]
  · intro c h hc habort
    rcases habort with ⟨e, he⟩ | ⟨e, he⟩ | ⟨e, he⟩ | ⟨e, he⟩ | ⟨e, he⟩
    · simp [updateTelescopeData, h, hc, he]
    · cases hf1 : f .siderealTime <;>
        simp [updateTelescopeData, h, hc, he, hf1]
    · cases hf1 : f .siderealTime <;> cases hf2 : f .rightAscension <;>
        simp [updateTelescopeData, h, hc, he, hf1, hf2]
    · cases hf1 : f .siderealTime <;> cases hf2 : f .rightAscension <;>
        cases hf3 : f .declination <;>
          simp [updateTelescopeData, h, hc, he, hf1, hf2, hf3]
    · cases hf1 : f .siderealTime <;> cases hf2 : f .rightAscension <;>
        cases hf3 : f .declination <;> cases hf4 : f .altitude <;>
          simp [updateTelescopeData, h, hc, he, hf1, hf2, hf3, hf4]
  · intro c v1 v2 v3 v4 v5 h hc h1 h2 h3 h4 h5
    have hbase : updateTelescopeData conn f trackingRateDirect parkedCmd atHomeCmd
          trackingRateCmd prev
        = mergeSnap prev
            (coreEntries v1 v2 v3 v4 v5
              ++ (guardFetch f .equatorialSystem ++ guardFetch f .tracking
                  ++ guardFetch f .slewing)
              ++ [(TProp.parked, getParkedSafe (f .parked) parkedCmd)]
              ++ [(TProp.atHome, getAtHomeSafe (f .atHome) atHomeCmd)]
              ++ [(TProp.trackingRate,
                   .str (getTrackingRateSafe trackingRateDirect trackingRateCmd))]
              ++ siteBlock f) := by
      simp [updateTelescopeData, h, hc, h1, h2, h3, h4, h5]
    rw [hbase]
    refine ⟨⟨?_, ?_, ?_, ?_, ?_⟩, ?_, ⟨?_, ?_⟩, ⟨?_, ?_⟩, ⟨?_, ?_⟩, ?_, ?_⟩
    · simp [mergeSnap, lookup_append, coreEntries, List.lookup]
    · simp [mergeSnap, lookup_append, coreEntries, List.lookup]
      rfl
    · simp [mergeSnap, lookup_append, coreEntries, List.lookup]
      rfl
    · simp [mergeSnap, lookup_append, coreEntries, List.lookup]
      rfl
    · simp [mergeSnap, lookup_append, coreEntries, List.lookup]
      rfl
    · intro p hp
      simp only [List.mem_cons, List.not_mem_nil, or_false] at hp
      have hcore : (coreEntries v1 v2 v3 v4 v5).lookup p = none := by
        rcases hp with rfl | rfl | rfl <;> rfl
      constructor
      · intro v hv
        rcases hp with rfl | rfl | rfl <;>
          · simp [mergeSnap, lookup_append, hcore, hv, lookup_guardFetch_ne,
              lookup_guardFetch_self, lookup_cons_ne, lookup_cons_self, lookup_siteBlock_ne]
            try rfl
      · intro e hv
        rcases hp with rfl | rfl | rfl <;>
          · simp [mergeSnap, lookup_append, hcore, hv, lookup_guardFetch_ne,
              lookup_guardFetch_self, lookup_cons_ne, lookup_cons_self, lookup_siteBlock_ne]
            try rfl
    · simp [mergeSnap, lookup_append, coreEntries, lookup_guardFetch_ne,
        lookup_cons_ne, lookup_cons_self, lookup_siteBlock_ne]
      try rfl
    · intro e e' hp hcmd
      simp [mergeSnap, lookup_append, coreEntries, hp, hcmd,
        getParkedSafe, safeBoolFetch, lookup_guardFetch_ne,
        lookup_cons_ne, lookup_cons_self, lookup_siteBlock_ne]
      try rfl
    · simp [mergeSnap, lookup_append, coreEntries, lookup_guardFetch_ne,
        lookup_cons_ne, lookup_cons_self, lookup_siteBlock_ne]
      try rfl
    · intro e e' hp hcmd
      simp [mergeSnap, lookup_append, coreEntries, hp, hcmd,
        getAtHomeSafe, safeBoolFetch, lookup_guardFetch_ne,
        lookup_cons_ne, lookup_cons_self, lookup_siteBlock_ne]
      try rfl
    · simp [mergeSnap, lookup_append, coreEntries, lookup_guardFetch_ne,
        lookup_cons_ne, lookup_cons_self, lookup_siteBlock_ne]
      try rfl
    · intro e e' hp hcmd
      simp [mergeSnap, lookup_append, coreEntries, hp, hcmd,
        getTrackingRateSafe, lookup_guardFetch_ne,
        lookup_cons_ne, lookup_cons_self, lookup_siteBlock_ne]
      try rfl
    · intro e hv
      refine ⟨?_, ?_, ?_⟩ <;>
        · simp [mergeSnap, lookup_append, coreEntries, List.lookup, siteBlock, hv,
            lookup_guardFetch_ne, lookup_cons_ne, lookup_cons_self]
          try rfl
    · intro la hla
      refine ⟨?_, ?_, ?_⟩
      · simp [mergeSnap, lookup_append, coreEntries, List.lookup, siteBlock, hla,
          lookup_guardFetch_ne, lookup_cons_ne, lookup_cons_self]
        try rfl
      · intro e hlo
        refine ⟨?_, ?_⟩ <;>
          · simp [mergeSnap, lookup_append, coreEntries, List.lookup, siteBlock, hla, hlo,
              lookup_guardFetch_ne, lookup_cons_ne, lookup_cons_self]
            try rfl
      · intro lo hlo
        refine ⟨?_, ?_, ?_⟩
        · simp [mergeSnap, lookup_append, coreEntries, List.lookup, siteBlock, hla, hlo,
            lookup_guardFetch_ne, lookup_cons_ne, lookup_cons_self]
          try rfl
        · intro e hel
          simp [mergeSnap, lookup_append, coreEntries, List.lookup, siteBlock, hla, hlo, hel,
            lookup_guardFetch_ne, lookup_cons_ne, lookup_cons_self]
          try rfl
        · intro el hel
          simp [mergeSnap, lookup_append, coreEntries, List.lookup, siteBlock, hla, hlo, hel,
            lookup_guardFetch_ne, lookup_cons_ne, lookup_cons_self]
          try rfl
  · intro g p
    constructor
    · intro v hv
      simp [ccUpdateData, hv]
    · intro e hv
      simp [ccUpdateData, hv]
  · intro g g' q hgq
    simp [ccUpdateData, hgq]

/-- Witness for C4's amended theorem: a cycle whose tracking-rate direct
read and command fallback both fail publishes the fresh default
"Unknown" for the tracking rate. -/
theorem c4_witness :
    updateTelescopeData (.ok (.bool true)) (fun _ => .ok (.num 2))
        (.error ()) (.error ()) (.error ()) (.error ())
        (fun _ => none) TProp.trackingRate = some (.str "Unknown") :=
  (((c4_partial_failure_isolation (.ok (.bool true)) (fun _ => .ok (.num 2))
      (.error ()) (.error ()) (.error ()) (.error ()) (fun _ => none)).2.2.2.1
    (.bool true) (.num 2) (.num 2) (.num 2) (.num 2) (.num 2)
    rfl rfl rfl rfl rfl rfl rfl).2.2.2.2.1.2) () () rfl rfl

/-- Folding the write micro-steps of one working copy keeps the lock
unchanged and applies the whole copy. -/
theorem foldl_writes (t : List (TProp × JVal)) (b : Bool) (s : TSnap) :
    (t.map (fun pv => WInstr.write pv.1 pv.2)).foldl stepInstr (b, s)
      = (b, applyCycle s t) := by
  induction t generalizing s with
  | nil => simp [applyCycle]
  | cons pv rest ih =>
    simp only [List.map_cons, List.foldl_cons, stepInstr]
    rw [ih]
    simp [applyCycle, List.foldl_cons]

/-- Executing one complete publish block from an unlocked state releases
the lock and publishes the fully merged cycle. -/
theorem foldl_cycleProgram (t : List (TProp × JVal)) (s : TSnap) :
    (cycleProgram t).foldl stepInstr (false, s) = (false, applyCycle s t) := by
  simp only [cycleProgram, List.foldl_cons, List.foldl_append]
  rw [show stepInstr (false, s) .acquire = (true, s) from rfl, foldl_writes]
  rfl

/-- Stopping strictly inside a publish block leaves the lock held by the
writer. -/
theorem foldl_cycleProgram_take (t : List (TProp × JVal)) (s : TSnap) (n : Nat)
    (h1 : 1 ≤ n) (h2 : n ≤ t.length + 1) :
    (((cycleProgram t).take n).foldl stepInstr (false, s)).1 = true := by
  obtain ⟨m, rfl⟩ : ∃ m, n = m + 1 := ⟨n - 1, by omega⟩
  simp only [cycleProgram, List.take_succ_cons, List.foldl_cons]
  rw [List.take_append_of_le_length (by simpa using by omega), ← List.map_take,
    show stepInstr (false, s) .acquire = (true, s) from rfl, foldl_writes]

/-- C9: whenever the polling writer does not hold the snapshot lock —
i.e. exactly when `get_data` can acquire it and copy — the published
snapshot equals the complete result of some whole number of publish
cycles: a reader never observes a snapshot mixing keys from cycle N and
cycle N+1. -/
theorem c9_snapshot_atomicity (cycles : List (List (TProp × JVal))) (init : TSnap)
    (n : Nat) (h : (execWriter init cycles n).1 = false) :
    ∃ k, k ≤ cycles.length
      ∧ (execWriter init cycles n).2 = applyCycles init (cycles.take k) := by
  induction cycles generalizing init n with
  | nil =>
    refine ⟨0, by omega, ?_⟩
    simp [execWriter, writerProgram, applyCycles]
  | cons c cs ih =>
    have hprog : writerProgram (c :: cs) = cycleProgram c ++ writerProgram cs := rfl
    have hlen : (cycleProgram c).length = c.length + 2 := by
      simp [cycleProgram]
    by_cases hn : n < (cycleProgram c).length
    · rcases Nat.eq_zero_or_pos n with rfl | hpos
      · exact ⟨0, by omega, by simp [execWriter, applyCycles]⟩
      · exfalso
        have htake : (writerProgram (c :: cs)).take n = (cycleProgram c).take n := by
          rw [hprog, List.take_append_eq_append_take,
            show n - (cycleProgram c).length = 0 from by omega]
          simp
        have hlock := foldl_cycleProgram_take c init n hpos (by omega)
        rw [execWriter, htake, hlock] at h
        exact absurd h (by simp)
    · have htake : (writerProgram (c :: cs)).take n
          = cycleProgram c ++ (writerProgram cs).take (n - (cycleProgram c).length) := by
        rw [hprog, List.take_append_eq_append_take,
          List.take_of_length_le (by omega)]
      have hsplit : execWriter init (c :: cs) n
          = execWriter (applyCycle init c) cs (n - (cycleProgram c).length) := by
        rw [execWriter, htake, List.foldl_append, foldl_cycleProgram]
        rfl
      rw [hsplit] at h ⊢
      obtain ⟨k, hk, heq⟩ := ih (applyCycle init c) (n - (cycleProgram c).length) h
      refine ⟨k + 1, by simpa using hk, ?_⟩
      simpa [applyCycles, List.take_cons] using heq

/-- Witness for C9: after the three micro-steps publishing the first of
two cycles, the lock is free and the published snapshot is the complete
first-cycle snapshot. -/
theorem c9_witness :
    ∃ k, k ≤ ([[(TProp.rightAscension, JVal.num 1)], [(TProp.rightAscension, JVal.num 2)]] :
        List (List (TProp × JVal))).length
      ∧ (execWriter (fun _ => none)
          [[(TProp.rightAscension, JVal.num 1)], [(TProp.rightAscension, JVal.num 2)]] 3).2
        = applyCycles (fun _ => none)
            (([[(TProp.rightAscension, JVal.num 1)],
               [(TProp.rightAscension, JVal.num 2)]] :
              List (List (TProp × JVal))).take k) :=
  c9_snapshot_atomicity
    [[(TProp.rightAscension, JVal.num 1)], [(TProp.rightAscension, JVal.num 2)]]
    (fun _ => none) 3 rfl

end TianyuControl
